import Mathlib

/-!
Verification of the orfmi/ormi AMI-builder core.

Shallow embedding of the provisioning pipeline, the compensating cleanup
engine and the remote-provisioning retry loop of the `orfmi` repository
(`src/orfmi/builder.py`, `src/ormi/builder.py`, and the `ec2`/`ssh`
collaborator modules).  Python exceptions are modelled with `Except`,
the mutable `BuildState` record with explicit state passing, and every
call the builder makes on an external collaborator is recorded in an
event trace so that ordering and call-count properties can be stated.
-/

set_option maxHeartbeats 1000000

/-- Tags are passed around as a key/value mapping; its exact shape is
irrelevant to the orchestration logic, so a list of pairs suffices. -/
abbrev Tags := List (String × String)

/-- Flat configuration record carrying exactly the fields that
`AmiConfig` (src/ormi/config.py) provides and the builders read. -/
structure AmiConfig where
  ami_name : String
  region : String
  source_ami : String
  subnet_ids : List String
  instance_types : List String
  ami_description : String := ""
  iam_instance_profile : Option String := none
  tags : Tags := []
  ssh_username : String := "admin"
  ssh_timeout : Nat := 300
  ssh_retries : Nat := 30
  platform : String := "linux"
  deriving DecidableEq, Repr

/-- Parameters of `create_launch_template` (src/orfmi/ec2.py interface,
as constructed by both builders). -/
structure LaunchTemplateParams where
  template_name : String
  base_ami : String
  sg_id : String
  key_name : String
  iam_profile : Option String
  deriving DecidableEq, Repr

/-- Parameters of `create_fleet_instance`. -/
structure FleetConfig where
  instance_types : List String
  subnet_ids : List String
  deriving DecidableEq, Repr

/-- SSH connection parameters (src/orfmi/ssh.py `SshConfig`). -/
structure SshConfig where
  ip_address : String
  key_material : String
  username : String
  timeout : Nat := 300
  retries : Nat := 30
  deriving DecidableEq, Repr

/-- Mutable state tracking for the AMI build process
(`BuildState`, src/orfmi/builder.py lines 32-39). -/
structure BuildState where
  instance_id : Option String := none
  sg_id : Option String := none
  key_material : Option String := none
  result : Option String := none
  deriving DecidableEq, Repr

/-- Immutable context for the AMI build process
(`BuildContext`, src/orfmi/builder.py lines 42-55).  The `ec2` handle is
factored out into the `Gateway` below; `setup_script_exists` records the
outcome of the `ctx.setup_script.exists()` filesystem query. -/
structure BuildContext where
  config : AmiConfig
  setup_script : String
  setup_script_exists : Bool
  unique_id : String
  extra_files : List String := []
  deriving DecidableEq, Repr

/-- One collaborator call made by a builder, with its arguments.  The
first nine constructors are the pipeline's calls, the last four the
cleanup engine's. -/
inductive Event where
  | getVpc (subnet : String)
  | createKeyPair (name : String) (tags : Tags)
  | createSecurityGroup (vpc name : String) (tags : Tags) (platform : String)
  | lookupSourceAmi (filter : String)
  | createLaunchTemplate (params : LaunchTemplateParams) (tags : Tags)
  | createFleetInstance (templateName : String) (fc : FleetConfig)
  | waitForInstance (instanceId : String)
  | runSetupScript (cfg : SshConfig) (script : String) (extras : List String)
  | createAmi (instanceId name description : String) (tags : Tags)
  | terminateInstance (instanceId : String)
  | deleteLaunchTemplate (name : String)
  | deleteKeyPair (name : String)
  | deleteSecurityGroup (sgId : String)
  deriving DecidableEq, Repr

/-- Behaviour of the external collaborators, one field per operation the
builders invoke.  The nine pipeline operations are the `ec2.py`/`ssh.py`
functions as the builder sees them (they may raise, modelled by
`Except.error`).  The four `raw_*` fields model the underlying cloud
API calls that the cleanup wrappers issue; `raw_delete_security_group`
is indexed by the attempt number because the wrapper retries it. -/
structure Gateway where
  get_vpc_from_subnet : String → Except String String
  create_key_pair : String → Tags → Except String String
  create_security_group : String → String → Tags → String → Except String String
  lookup_source_ami : String → Except String String
  create_launch_template : LaunchTemplateParams → Tags → Except String Unit
  create_fleet_instance : String → FleetConfig → Except String String
  wait_for_instance : String → Except String String
  run_setup_script : SshConfig → String → List String → Except String Unit
  create_ami : String → String → String → Tags → Except String String
  raw_terminate_instance : String → Except String Unit
  raw_delete_launch_template : String → Except String Unit
  raw_delete_key_pair : String → Except String Unit
  raw_delete_security_group : String → Nat → Except String Unit

/-- Embedding of `BuildContext.resource_name` (src/orfmi/builder.py lines 52-55). -/
def orfmi_resource_name (ctx : BuildContext) (suffix : String) : String :=
  if suffix = "" then "orfmi-" ++ ctx.unique_id
  else "orfmi-" ++ ctx.unique_id ++ "-" ++ suffix

/-- Resource names used by the ormi builder
(src/ormi/builder.py lines 93-95). -/
def ormi_resource_name (uniqueId : String) : String :=
  "ormi-" ++ uniqueId

/-- Modelled from the spec: `terminate_instance` in the missing
src/orfmi/ec2.py — terminates the instance and waits for confirmation;
like every cleanup step it is individually guarded, so a failure of the
underlying call is logged and never propagated to the caller. -/
def terminate_instance (g : Gateway) (instanceId : String) : List Event :=
  match g.raw_terminate_instance instanceId with
  | Except.ok _ => [Event.terminateInstance instanceId]
  | Except.error _ => [Event.terminateInstance instanceId]

/-- Modelled from the spec: `delete_launch_template` in the missing
src/orfmi/ec2.py — idempotent deletion; errors are silently ignored,
never raised (confirmed by test/unit/test_ec2.py `test_handles_error`). -/
def delete_launch_template (g : Gateway) (name : String) : List Event :=
  match g.raw_delete_launch_template name with
  | Except.ok _ => [Event.deleteLaunchTemplate name]
  | Except.error _ => [Event.deleteLaunchTemplate name]

/-- Modelled from the spec: `delete_key_pair` in the missing
src/orfmi/ec2.py — idempotent deletion; errors are logged but not
raised (confirmed by test/unit/test_ec2.py `test_handles_error`). -/
def delete_key_pair (g : Gateway) (name : String) : List Event :=
  match g.raw_delete_key_pair name with
  | Except.ok _ => [Event.deleteKeyPair name]
  | Except.error _ => [Event.deleteKeyPair name]

/-- Retry ceiling for security-group deletion; the spec fixes no number,
only that the retry loop is bounded. -/
def sgDeleteRetryCeiling : Nat := 10

/-- Modelled from the spec: the bounded retry loop inside
`delete_security_group` in the missing src/orfmi/ec2.py — the delete is
retried on failure (dependency-violation conditions) until it succeeds
or the ceiling is reached; returns the number of attempts made. -/
def sg_delete_tries (raw : Nat → Except String Unit) : Nat → Nat → Nat
  | _, 0 => 0
  | attempt, fuel + 1 =>
    match raw attempt with
    | Except.ok _ => 1
    | Except.error _ => 1 + sg_delete_tries raw (attempt + 1) fuel

/-- Modelled from the spec: `delete_security_group` in the missing
src/orfmi/ec2.py — deletes by group id, retrying on transient
dependency conflicts up to a ceiling, then gives up and logs rather
than raising; the caller never observes a failure. -/
def delete_security_group (g : Gateway) (sgId : String) : List Event :=
  match sg_delete_tries (g.raw_delete_security_group sgId) 0 sgDeleteRetryCeiling with
  | _ => [Event.deleteSecurityGroup sgId]

/-- Embedding of `AmiBuilder._cleanup` (src/orfmi/builder.py lines 207-227):
terminate the instance when one is recorded, delete the launch template
and key pair by their deterministic names, delete the security group
when one is recorded.  The guards `if state.instance_id:` and
`if state.sg_id:` are Python truthiness tests, so a recorded empty
string skips the step just like an unset field. -/
def orfmi_cleanup (g : Gateway) (ctx : BuildContext) (state : BuildState) :
    List Event :=
  let key_name := orfmi_resource_name ctx ""
  let template_name := orfmi_resource_name ctx ""
  (match state.instance_id with
   | some iid => if iid = "" then [] else terminate_instance g iid
   | none => [])
  ++ delete_launch_template g template_name
  ++ delete_key_pair g key_name
  ++ (match state.sg_id with
      | some sg => if sg = "" then [] else delete_security_group g sg
      | none => [])

/-- Embedding of `AmiBuilder._launch_and_configure` (src/orfmi/builder.py lines
169-205): request a fleet instance, wait for its public address, and —
when the setup script exists on local storage — run it over SSH after
checking that key material was recorded (Python's falsy test
`if not state.key_material`).  Returns the updated state, the trace of
collaborator calls, and `some e` when the Python code raises `e`. -/
def orfmi_launch_and_configure (g : Gateway) (ctx : BuildContext)
    (state : BuildState) (template_name : String) :
    BuildState × List Event × Option String :=
  let config := ctx.config
  let fleet_config : FleetConfig :=
    ⟨config.instance_types, config.subnet_ids⟩
  match g.create_fleet_instance template_name fleet_config with
  | Except.error e =>
    (state, [Event.createFleetInstance template_name fleet_config], some e)
  | Except.ok iid =>
    let state := { state with instance_id := some iid }
    match g.wait_for_instance iid with
    | Except.error e =>
      (state, [Event.createFleetInstance template_name fleet_config,
               Event.waitForInstance iid], some e)
    | Except.ok public_ip =>
      if ctx.setup_script_exists then
        if state.key_material.getD "" = "" then
          (state, [Event.createFleetInstance template_name fleet_config,
                   Event.waitForInstance iid], some "Key material not set")
        else
          let ssh_config : SshConfig :=
            ⟨public_ip, state.key_material.getD "", config.ssh_username,
             config.ssh_timeout, config.ssh_retries⟩
          match g.run_setup_script ssh_config ctx.setup_script ctx.extra_files with
          | Except.error e =>
            (state, [Event.createFleetInstance template_name fleet_config,
                     Event.waitForInstance iid,
                     Event.runSetupScript ssh_config ctx.setup_script
                       ctx.extra_files], some e)
          | Except.ok _ =>
            (state, [Event.createFleetInstance template_name fleet_config,
                     Event.waitForInstance iid,
                     Event.runSetupScript ssh_config ctx.setup_script
                       ctx.extra_files], none)
      else
        (state, [Event.createFleetInstance template_name fleet_config,
                 Event.waitForInstance iid], none)

/-- Embedding of `AmiBuilder._run_build` (src/orfmi/builder.py lines 122-167): the
provisioning pipeline.  Accessing `subnet_ids[0]` on an empty list
raises Python's IndexError; the `if not state.instance_id` falsy check
after launch raises "Instance ID not set after launch". -/
def orfmi_run_build (g : Gateway) (ctx : BuildContext) (state : BuildState) :
    BuildState × List Event × Option String :=
  let config := ctx.config
  let key_name := orfmi_resource_name ctx ""
  let template_name := orfmi_resource_name ctx ""
  let sg_name := orfmi_resource_name ctx ""
  match config.subnet_ids with
  | [] => (state, [], some "list index out of range")
  | subnet0 :: _ =>
    match g.get_vpc_from_subnet subnet0 with
    | Except.error e => (state, [Event.getVpc subnet0], some e)
    | Except.ok vpc_id =>
      match g.create_key_pair key_name config.tags with
      | Except.error e =>
        (state, [Event.getVpc subnet0,
                 Event.createKeyPair key_name config.tags], some e)
      | Except.ok km =>
        let state := { state with key_material := some km }
        match g.create_security_group vpc_id sg_name config.tags config.platform with
        | Except.error e =>
          (state, [Event.getVpc subnet0,
                   Event.createKeyPair key_name config.tags,
                   Event.createSecurityGroup vpc_id sg_name config.tags
                     config.platform], some e)
        | Except.ok sg =>
          let state := { state with sg_id := some sg }
          match g.lookup_source_ami config.source_ami with
          | Except.error e =>
            (state, [Event.getVpc subnet0,
                     Event.createKeyPair key_name config.tags,
                     Event.createSecurityGroup vpc_id sg_name config.tags
                       config.platform,
                     Event.lookupSourceAmi config.source_ami], some e)
          | Except.ok source_ami_id =>
            let lt_params : LaunchTemplateParams :=
              ⟨template_name, source_ami_id, sg, key_name,
               config.iam_instance_profile⟩
            match g.create_launch_template lt_params config.tags with
            | Except.error e =>
              (state, [Event.getVpc subnet0,
                       Event.createKeyPair key_name config.tags,
                       Event.createSecurityGroup vpc_id sg_name config.tags
                         config.platform,
                       Event.lookupSourceAmi config.source_ami,
                       Event.createLaunchTemplate lt_params config.tags], some e)
            | Except.ok _ =>
              let prefixTrace :=
                [Event.getVpc subnet0,
                 Event.createKeyPair key_name config.tags,
                 Event.createSecurityGroup vpc_id sg_name config.tags
                   config.platform,
                 Event.lookupSourceAmi config.source_ami,
                 Event.createLaunchTemplate lt_params config.tags]
              match orfmi_launch_and_configure g ctx state template_name with
              | (state2, tr2, some e) => (state2, prefixTrace ++ tr2, some e)
              | (state2, tr2, none) =>
                if state2.instance_id.getD "" = "" then
                  (state2, prefixTrace ++ tr2, some "Instance ID not set after launch")
                else
                  match g.create_ami (state2.instance_id.getD "") config.ami_name
                      config.ami_description config.tags with
                  | Except.error e =>
                    (state2,
                     prefixTrace ++ tr2 ++
                       [Event.createAmi (state2.instance_id.getD "")
                         config.ami_name config.ami_description config.tags],
                     some e)
                  | Except.ok img =>
                    ({ state2 with result := some img },
                     prefixTrace ++ tr2 ++
                       [Event.createAmi (state2.instance_id.getD "")
                         config.ami_name config.ami_description config.tags],
                     none)

/-- Embedding of `AmiBuilder._run_build` (src/ormi/builder.py lines 107-179): the
ormi variant of the pipeline.  Structurally the same sequence of
collaborator calls, but the resource names are passed in from `build`
(prefix `ormi-`), there is no falsy check on the key material before
running the setup script, the launch/configure phase is inlined, and
there is no "Instance ID not set after launch" check before
`create_ami`, which receives the instance id recorded at launch. -/
def ormi_run_build (g : Gateway) (ctx : BuildContext) (state : BuildState)
    (key_name template_name sg_name : String) :
    BuildState × List Event × Option String :=
  let config := ctx.config
  match config.subnet_ids with
  | [] => (state, [], some "list index out of range")
  | subnet0 :: _ =>
    match g.get_vpc_from_subnet subnet0 with
    | Except.error e => (state, [Event.getVpc subnet0], some e)
    | Except.ok vpc_id =>
      match g.create_key_pair key_name config.tags with
      | Except.error e =>
        (state, [Event.getVpc subnet0,
                 Event.createKeyPair key_name config.tags], some e)
      | Except.ok km =>
        let state := { state with key_material := some km }
        match g.create_security_group vpc_id sg_name config.tags config.platform with
        | Except.error e =>
          (state, [Event.getVpc subnet0,
                   Event.createKeyPair key_name config.tags,
                   Event.createSecurityGroup vpc_id sg_name config.tags
                     config.platform], some e)
        | Except.ok sg =>
          let state := { state with sg_id := some sg }
          match g.lookup_source_ami config.source_ami with
          | Except.error e =>
            (state, [Event.getVpc subnet0,
                     Event.createKeyPair key_name config.tags,
                     Event.createSecurityGroup vpc_id sg_name config.tags
                       config.platform,
                     Event.lookupSourceAmi config.source_ami], some e)
          | Except.ok source_ami_id =>
            let lt_params : LaunchTemplateParams :=
              ⟨template_name, source_ami_id, sg, key_name,
               config.iam_instance_profile⟩
            match g.create_launch_template lt_params config.tags with
            | Except.error e =>
              (state, [Event.getVpc subnet0,
                       Event.createKeyPair key_name config.tags,
                       Event.createSecurityGroup vpc_id sg_name config.tags
                         config.platform,
                       Event.lookupSourceAmi config.source_ami,
                       Event.createLaunchTemplate lt_params config.tags], some e)
            | Except.ok _ =>
              let prefixTrace :=
                [Event.getVpc subnet0,
                 Event.createKeyPair key_name config.tags,
                 Event.createSecurityGroup vpc_id sg_name config.tags
                   config.platform,
                 Event.lookupSourceAmi config.source_ami,
                 Event.createLaunchTemplate lt_params config.tags]
              let fleet_config : FleetConfig :=
                ⟨config.instance_types, config.subnet_ids⟩
              match g.create_fleet_instance template_name fleet_config with
              | Except.error e =>
                (state,
                 prefixTrace ++ [Event.createFleetInstance template_name fleet_config],
                 some e)
              | Except.ok iid =>
                let state := { state with instance_id := some iid }
                match g.wait_for_instance iid with
                | Except.error e =>
                  (state,
                   prefixTrace ++
                     [Event.createFleetInstance template_name fleet_config,
                      Event.waitForInstance iid], some e)
                | Except.ok public_ip =>
                  let midTrace :=
                    prefixTrace ++
                      [Event.createFleetInstance template_name fleet_config,
                       Event.waitForInstance iid]
                  let sshStep :
                      List Event × Option String :=
                    if ctx.setup_script_exists then
                      let ssh_config : SshConfig :=
                        ⟨public_ip, km, config.ssh_username,
                         config.ssh_timeout, config.ssh_retries⟩
                      match g.run_setup_script ssh_config ctx.setup_script
                          ctx.extra_files with
                      | Except.error e =>
                        ([Event.runSetupScript ssh_config ctx.setup_script
                            ctx.extra_files], some e)
                      | Except.ok _ =>
                        ([Event.runSetupScript ssh_config ctx.setup_script
                            ctx.extra_files], none)
                    else ([], none)
                  match sshStep with
                  | (tr, some e) => (state, midTrace ++ tr, some e)
                  | (tr, none) =>
                    match g.create_ami iid config.ami_name
                        config.ami_description config.tags with
                    | Except.error e =>
                      (state,
                       midTrace ++ tr ++
                         [Event.createAmi iid config.ami_name
                           config.ami_description config.tags], some e)
                    | Except.ok img =>
                      ({ state with result := some img },
                       midTrace ++ tr ++
                         [Event.createAmi iid config.ami_name
                           config.ami_description config.tags], none)

/-- Embedding of `AmiBuilder._cleanup` (src/ormi/builder.py lines 181-203): same
steps as the orfmi cleanup, with the names passed in from `build`; the
`if state.instance_id:` / `if state.sg_id:` guards are again Python
truthiness tests, skipping the step on an empty-string id. -/
def ormi_cleanup (g : Gateway) (state : BuildState)
    (template_name key_name : String) : List Event :=
  (match state.instance_id with
   | some iid => if iid = "" then [] else terminate_instance g iid
   | none => [])
  ++ delete_launch_template g template_name
  ++ delete_key_pair g key_name
  ++ (match state.sg_id with
      | some sg => if sg = "" then [] else delete_security_group g sg
      | none => [])

/-- Embedding of `AmiBuilder.build` (src/ormi/builder.py lines 73-105): compute the
`ormi-`-prefixed resource names, run the pipeline inside a try/finally
whose finally-block is `_cleanup`, re-raise the pipeline error, raise
"AMI build failed: no AMI ID returned" when no result was recorded,
else return the AMI id. -/
def ormi_build (g : Gateway) (ctx : BuildContext) :
    Except String String × List Event :=
  let key_name := ormi_resource_name ctx.unique_id
  let template_name := ormi_resource_name ctx.unique_id
  let sg_name := ormi_resource_name ctx.unique_id
  match ormi_run_build g ctx {} key_name template_name sg_name with
  | (state, trace, err) =>
    let fullTrace := trace ++ ormi_cleanup g state template_name key_name
    match err with
    | some e => (Except.error e, fullTrace)
    | none =>
      match state.result with
      | none => (Except.error "AMI build failed: no AMI ID returned", fullTrace)
      | some r =>
        if r = "" then
          (Except.error "AMI build failed: no AMI ID returned", fullTrace)
        else (Except.ok r, fullTrace)

/-- Embedding of `AmiBuilder.build` (src/orfmi/builder.py lines 92-120): run the
pipeline inside a try/finally whose finally-block is `_cleanup` on the
same state, then re-raise the pipeline error, or raise
"AMI build failed: no AMI ID returned" when the result field is unset
(Python's falsy test `if not state.result`), or return the AMI id. -/
def orfmi_build (g : Gateway) (ctx : BuildContext) :
    Except String String × List Event :=
  match orfmi_run_build g ctx {} with
  | (state, trace, err) =>
    let fullTrace := trace ++ orfmi_cleanup g ctx state
    match err with
    | some e => (Except.error e, fullTrace)
    | none =>
      match state.result with
      | none => (Except.error "AMI build failed: no AMI ID returned", fullTrace)
      | some r =>
        if r = "" then
          (Except.error "AMI build failed: no AMI ID returned", fullTrace)
        else (Except.ok r, fullTrace)

/-- Modelled from the spec: the bounded connection-retry loop of
`connect_ssh` in the missing src/orfmi/ssh.py.  `ok i` tells whether the
underlying connect primitive succeeds on (0-based) attempt `i`; the loop
makes up to `remaining` attempts starting at `attempt`, sleeping a fixed
interval after each failure, and returns the number of connect calls
made together with the outcome — `Except.error "Failed to connect"`
once the retry count is exhausted. -/
def connect_loop (ok : Nat → Bool) : Nat → Nat → Nat × Except String Unit
  | _, 0 => (0, Except.error "Failed to connect")
  | attempt, remaining + 1 =>
    if ok attempt then (1, Except.ok ())
    else
      match connect_loop ok (attempt + 1) remaining with
      | (calls, outcome) => (calls + 1, outcome)

/-- Modelled from the spec: `connect_ssh` in the missing
src/orfmi/ssh.py — retries the connect primitive up to the configured
retry count and fails with "Failed to connect" when every attempt
fails (confirmed by test/unit/test_ssh.py `TestConnectSsh`). -/
def connect_ssh (ok : Nat → Bool) (retries : Nat) : Nat × Except String Unit :=
  connect_loop ok 0 retries

/-- One remote-shell session action performed by `run_setup_script`. -/
inductive SshEvent where
  | connectSession
  | uploadScript (localPath remotePath : String)
  | chmodScript (remotePath : String)
  | execScript (remotePath : String)
  | uploadExtra (localPath : String)
  | closeSession
  deriving DecidableEq, Repr

/-- Outcomes of the individual remote-shell primitives consumed by
`run_setup_script`; the session object itself is opaque, so only the
success/failure of each call matters to the orchestration. -/
structure SshOps where
  connect : Except String Unit
  uploadScriptOp : Except String Unit
  chmodOp : Except String Unit
  execOp : Except String Unit
  uploadExtraOp : String → Except String Unit

/-- The fixed remote path the setup script is uploaded to. -/
def remoteSetupPath : String := "/tmp/setup.sh"

/-- Modelled from the spec: the extra-file upload loop inside
`run_setup_script` — each extra file is uploaded in the order given,
stopping at the first failure (fatal per the error-handling design). -/
def upload_extras (ops : SshOps) : List String → List SshEvent × Option String
  | [] => ([], none)
  | f :: fs =>
    match ops.uploadExtraOp f with
    | Except.error e => ([SshEvent.uploadExtra f], some e)
    | Except.ok _ =>
      match upload_extras ops fs with
      | (tr, out) => (SshEvent.uploadExtra f :: tr, out)

/-- Modelled from the spec: the session body of `run_setup_script` in
the missing src/orfmi/ssh.py — upload the setup script to the fixed
remote path, mark it executable, execute it as a remote command, then
upload each extra file in order, stopping at the first failure. -/
def ssh_session_body (ops : SshOps) (script : String) (extras : List String) :
    List SshEvent × Option String :=
  match ops.uploadScriptOp with
  | Except.error e => ([SshEvent.uploadScript script remoteSetupPath], some e)
  | Except.ok _ =>
    match ops.chmodOp with
    | Except.error e =>
      ([SshEvent.uploadScript script remoteSetupPath,
        SshEvent.chmodScript remoteSetupPath], some e)
    | Except.ok _ =>
      match ops.execOp with
      | Except.error e =>
        ([SshEvent.uploadScript script remoteSetupPath,
          SshEvent.chmodScript remoteSetupPath,
          SshEvent.execScript remoteSetupPath], some e)
      | Except.ok _ =>
        match upload_extras ops extras with
        | (tr, out) =>
          (SshEvent.uploadScript script remoteSetupPath ::
           SshEvent.chmodScript remoteSetupPath ::
           SshEvent.execScript remoteSetupPath :: tr, out)

/-- Modelled from the spec: `run_setup_script` in the missing
src/orfmi/ssh.py — connect (a failed connection propagates and no
session exists to close), then run the session body inside a
try/finally that closes the session unconditionally on every exit
path, and re-raise any body failure. -/
def run_setup_script (ops : SshOps) (script : String) (extras : List String) :
    List SshEvent × Option String :=
  match ops.connect with
  | Except.error e => ([SshEvent.connectSession], some e)
  | Except.ok _ =>
    match ssh_session_body ops script extras with
    | (tr, out) =>
      (SshEvent.connectSession :: tr ++ [SshEvent.closeSession], out)

/-- A machine image as returned by the image-describe call: id and
creation timestamp. -/
structure AmiImage where
  image_id : String
  creation_date : String
  deriving DecidableEq, Repr

/-- Modelled from the spec: the newest-image selection inside
`lookup_source_ami` in the missing src/orfmi/ec2.py — fold over the
matches keeping the image with the (strictly) most recent creation
timestamp; on equal timestamps the incumbent is kept, a tie-break the
spec leaves unspecified. -/
def pick_newest : AmiImage → List AmiImage → AmiImage
  | best, [] => best
  | best, i :: rest =>
    pick_newest (if best.creation_date < i.creation_date then i else best) rest

/-- Modelled from the spec: `lookup_source_ami` in the missing
src/orfmi/ec2.py — fail with "No AMI found" when zero images match the
filter, otherwise return the id of the newest match (confirmed by
test/unit/test_ec2.py `TestLookupSourceAmi`). -/
def lookup_source_ami : List AmiImage → Except String String
  | [] => Except.error "No AMI found"
  | i :: rest => Except.ok (pick_newest i rest).image_id

/-- The error component of an `Except`, `none` on success. -/
def errOf {α : Type} : Except String α → Option String
  | Except.error e => some e
  | Except.ok _ => none

/-- Replays a single recorded pipeline call against a gateway and
returns the error it raises there, if any; cleanup calls never raise
towards the builder and yield `none`. -/
def evErr (g : Gateway) : Event → Option String
  | Event.getVpc sn => errOf (g.get_vpc_from_subnet sn)
  | Event.createKeyPair n t => errOf (g.create_key_pair n t)
  | Event.createSecurityGroup v n t p => errOf (g.create_security_group v n t p)
  | Event.lookupSourceAmi f => errOf (g.lookup_source_ami f)
  | Event.createLaunchTemplate p t => errOf (g.create_launch_template p t)
  | Event.createFleetInstance tn fc => errOf (g.create_fleet_instance tn fc)
  | Event.waitForInstance i => errOf (g.wait_for_instance i)
  | Event.runSetupScript c s x => errOf (g.run_setup_script c s x)
  | Event.createAmi i n d t => errOf (g.create_ami i n d t)
  | Event.terminateInstance _ => none
  | Event.deleteLaunchTemplate _ => none
  | Event.deleteKeyPair _ => none
  | Event.deleteSecurityGroup _ => none

/-- Position of each collaborator operation in the pipeline/cleanup
sequence; used to state ordering and at-most-once properties. -/
def stepIndex : Event → Nat
  | Event.getVpc _ => 0
  | Event.createKeyPair _ _ => 1
  | Event.createSecurityGroup _ _ _ _ => 2
  | Event.lookupSourceAmi _ => 3
  | Event.createLaunchTemplate _ _ => 4
  | Event.createFleetInstance _ _ => 5
  | Event.waitForInstance _ => 6
  | Event.runSetupScript _ _ _ => 7
  | Event.createAmi _ _ _ _ => 8
  | Event.terminateInstance _ => 9
  | Event.deleteLaunchTemplate _ => 10
  | Event.deleteKeyPair _ => 11
  | Event.deleteSecurityGroup _ => 12

/-- Whether an event is a cleanup-engine call. -/
def Event.isCleanup : Event → Bool
  | Event.terminateInstance _ => true
  | Event.deleteLaunchTemplate _ => true
  | Event.deleteKeyPair _ => true
  | Event.deleteSecurityGroup _ => true
  | _ => false

/-- Whether an event is an instance termination. -/
def Event.isTerminate : Event → Bool
  | Event.terminateInstance _ => true
  | _ => false

/-- Whether an event is a launch-template deletion. -/
def Event.isDeleteLaunchTemplate : Event → Bool
  | Event.deleteLaunchTemplate _ => true
  | _ => false

/-- Whether an event is a key-pair deletion. -/
def Event.isDeleteKeyPair : Event → Bool
  | Event.deleteKeyPair _ => true
  | _ => false

/-- Whether an event is a security-group deletion. -/
def Event.isDeleteSecurityGroup : Event → Bool
  | Event.deleteSecurityGroup _ => true
  | _ => false

/-- Whether an event is a Remote Provisioner invocation. -/
def Event.isRunSetupScript : Event → Bool
  | Event.runSetupScript _ _ _ => true
  | _ => false

/-- Whether an event is an image creation. -/
def Event.isCreateAmi : Event → Bool
  | Event.createAmi _ _ _ _ => true
  | _ => false

lemma terminate_instance_eq (g : Gateway) (iid : String) :
    terminate_instance g iid = [Event.terminateInstance iid] := by
  unfold terminate_instance
  cases g.raw_terminate_instance iid <;> rfl

lemma delete_launch_template_eq (g : Gateway) (name : String) :
    delete_launch_template g name = [Event.deleteLaunchTemplate name] := by
  unfold delete_launch_template
  cases g.raw_delete_launch_template name <;> rfl

lemma delete_key_pair_eq (g : Gateway) (name : String) :
    delete_key_pair g name = [Event.deleteKeyPair name] := by
  unfold delete_key_pair
  cases g.raw_delete_key_pair name <;> rfl

lemma delete_security_group_eq (g : Gateway) (sgId : String) :
    delete_security_group g sgId = [Event.deleteSecurityGroup sgId] := by
  unfold delete_security_group
  rfl

/-- The cleanup trace, independent of whether any underlying deletion
call fails: the optional termination, the template deletion, the key
deletion, the optional security-group deletion, in this order. -/
lemma orfmi_cleanup_eq (g : Gateway) (ctx : BuildContext) (s : BuildState) :
    orfmi_cleanup g ctx s =
      (match s.instance_id with
       | some iid => if iid = "" then [] else [Event.terminateInstance iid]
       | none => [])
      ++ [Event.deleteLaunchTemplate (orfmi_resource_name ctx ""),
          Event.deleteKeyPair (orfmi_resource_name ctx "")]
      ++ (match s.sg_id with
          | some sg => if sg = "" then [] else [Event.deleteSecurityGroup sg]
          | none => []) := by
  obtain ⟨i, sgid, k, r⟩ := s
  cases i <;> cases sgid <;>
    simp [orfmi_cleanup, terminate_instance_eq, delete_launch_template_eq,
      delete_key_pair_eq, delete_security_group_eq]

/-- The five pipeline events preceding the launch phase, given the
values returned by the collaborators up to that point. -/
def orfmiPrefixTrace (ctx : BuildContext) (sn vpc sg src : String) : List Event :=
  [Event.getVpc sn,
   Event.createKeyPair (orfmi_resource_name ctx "") ctx.config.tags,
   Event.createSecurityGroup vpc (orfmi_resource_name ctx "") ctx.config.tags
     ctx.config.platform,
   Event.lookupSourceAmi ctx.config.source_ami,
   Event.createLaunchTemplate
     ⟨orfmi_resource_name ctx "", src, sg, orfmi_resource_name ctx "",
      ctx.config.iam_instance_profile⟩ ctx.config.tags]

/-- Exhaustive characterization of the outcomes of the orfmi pipeline
(`_run_build` composed with `_launch_and_configure`): one disjunct per
exit point, each recording the collaborator responses that led there,
the exact trace of calls made, the final `BuildState`, and the raised
error if any. -/
def OrfmiOutcome (g : Gateway) (ctx : BuildContext)
    (out : BuildState × List Event × Option String) : Prop :=
  let cfg := ctx.config
  let nm := orfmi_resource_name ctx ""
  let fc : FleetConfig := ⟨cfg.instance_types, cfg.subnet_ids⟩
  (cfg.subnet_ids = [] ∧ out = ({}, [], some "list index out of range"))
  ∨ ∃ sn rest, cfg.subnet_ids = sn :: rest ∧
    ((∃ e, g.get_vpc_from_subnet sn = Except.error e ∧
        out = ({}, [Event.getVpc sn], some e))
     ∨ ∃ vpc, g.get_vpc_from_subnet sn = Except.ok vpc ∧
       ((∃ e, g.create_key_pair nm cfg.tags = Except.error e ∧
           out = ({}, [Event.getVpc sn, Event.createKeyPair nm cfg.tags], some e))
        ∨ ∃ km, g.create_key_pair nm cfg.tags = Except.ok km ∧
          ((∃ e, g.create_security_group vpc nm cfg.tags cfg.platform = Except.error e ∧
              out = (⟨none, none, some km, none⟩,
                     [Event.getVpc sn, Event.createKeyPair nm cfg.tags,
                      Event.createSecurityGroup vpc nm cfg.tags cfg.platform],
                     some e))
           ∨ ∃ sg, g.create_security_group vpc nm cfg.tags cfg.platform = Except.ok sg ∧
             ((∃ e, g.lookup_source_ami cfg.source_ami = Except.error e ∧
                 out = (⟨none, some sg, some km, none⟩,
                        [Event.getVpc sn, Event.createKeyPair nm cfg.tags,
                         Event.createSecurityGroup vpc nm cfg.tags cfg.platform,
                         Event.lookupSourceAmi cfg.source_ami],
                        some e))
              ∨ ∃ src, g.lookup_source_ami cfg.source_ami = Except.ok src ∧
                ((∃ e, g.create_launch_template
                     ⟨nm, src, sg, nm, cfg.iam_instance_profile⟩ cfg.tags = Except.error e ∧
                    out = (⟨none, some sg, some km, none⟩,
                           orfmiPrefixTrace ctx sn vpc sg src, some e))
                 ∨ (g.create_launch_template
                      ⟨nm, src, sg, nm, cfg.iam_instance_profile⟩ cfg.tags = Except.ok () ∧
                    ((∃ e, g.create_fleet_instance nm fc = Except.error e ∧
                        out = (⟨none, some sg, some km, none⟩,
                               orfmiPrefixTrace ctx sn vpc sg src ++
                                 [Event.createFleetInstance nm fc], some e))
                     ∨ ∃ iid, g.create_fleet_instance nm fc = Except.ok iid ∧
                       ((∃ e, g.wait_for_instance iid = Except.error e ∧
                           out = (⟨some iid, some sg, some km, none⟩,
                                  orfmiPrefixTrace ctx sn vpc sg src ++
                                    [Event.createFleetInstance nm fc,
                                     Event.waitForInstance iid], some e))
                        ∨ ∃ ip, g.wait_for_instance iid = Except.ok ip ∧
                          ((ctx.setup_script_exists = true ∧ km = "" ∧
                            out = (⟨some iid, some sg, some km, none⟩,
                                   orfmiPrefixTrace ctx sn vpc sg src ++
                                     [Event.createFleetInstance nm fc,
                                      Event.waitForInstance iid],
                                   some "Key material not set"))
                           ∨ (∃ e, ctx.setup_script_exists = true ∧ km ≠ "" ∧
                              g.run_setup_script
                                ⟨ip, km, cfg.ssh_username, cfg.ssh_timeout, cfg.ssh_retries⟩
                                ctx.setup_script ctx.extra_files = Except.error e ∧
                              out = (⟨some iid, some sg, some km, none⟩,
                                     orfmiPrefixTrace ctx sn vpc sg src ++
                                       [Event.createFleetInstance nm fc,
                                        Event.waitForInstance iid,
                                        Event.runSetupScript
                                          ⟨ip, km, cfg.ssh_username, cfg.ssh_timeout,
                                           cfg.ssh_retries⟩
                                          ctx.setup_script ctx.extra_files], some e))
                           ∨ ∃ tr2,
                             ((ctx.setup_script_exists = true ∧ km ≠ "" ∧
                               g.run_setup_script
                                 ⟨ip, km, cfg.ssh_username, cfg.ssh_timeout, cfg.ssh_retries⟩
                                 ctx.setup_script ctx.extra_files = Except.ok () ∧
                               tr2 = orfmiPrefixTrace ctx sn vpc sg src ++
                                 [Event.createFleetInstance nm fc,
                                  Event.waitForInstance iid,
                                  Event.runSetupScript
                                    ⟨ip, km, cfg.ssh_username, cfg.ssh_timeout,
                                     cfg.ssh_retries⟩
                                    ctx.setup_script ctx.extra_files])
                              ∨ (ctx.setup_script_exists = false ∧
                                 tr2 = orfmiPrefixTrace ctx sn vpc sg src ++
                                   [Event.createFleetInstance nm fc,
                                    Event.waitForInstance iid])) ∧
                             ((iid = "" ∧
                               out = (⟨some iid, some sg, some km, none⟩, tr2,
                                      some "Instance ID not set after launch"))
                              ∨ (∃ e, iid ≠ "" ∧
                                 g.create_ami iid cfg.ami_name cfg.ami_description
                                   cfg.tags = Except.error e ∧
                                 out = (⟨some iid, some sg, some km, none⟩,
                                        tr2 ++ [Event.createAmi iid cfg.ami_name
                                          cfg.ami_description cfg.tags], some e))
                              ∨ (∃ img, iid ≠ "" ∧
                                 g.create_ami iid cfg.ami_name cfg.ami_description
                                   cfg.tags = Except.ok img ∧
                                 out = (⟨some iid, some sg, some km, some img⟩,
                                        tr2 ++ [Event.createAmi iid cfg.ami_name
                                          cfg.ami_description cfg.tags], none))))))))))))


/-- Every run of the orfmi pipeline lands in one of the outcomes
enumerated by `OrfmiOutcome`. -/
lemma orfmi_run_build_spec (g : Gateway) (ctx : BuildContext) :
    OrfmiOutcome g ctx (orfmi_run_build g ctx {}) := by
  simp only [OrfmiOutcome]
  cases hsub : ctx.config.subnet_ids with
  | nil => exact Or.inl ⟨rfl, by simp [orfmi_run_build, hsub]⟩
  | cons sn rest =>
  refine Or.inr ⟨sn, rest, rfl, ?_⟩
  cases hvpc : g.get_vpc_from_subnet sn with
  | error e => exact Or.inl ⟨e, rfl, by simp [orfmi_run_build, hsub, hvpc]⟩
  | ok vpc =>
  refine Or.inr ⟨vpc, rfl, ?_⟩
  cases hkp : g.create_key_pair (orfmi_resource_name ctx "") ctx.config.tags with
  | error e => exact Or.inl ⟨e, rfl, by simp [orfmi_run_build, hsub, hvpc, hkp]⟩
  | ok km =>
  refine Or.inr ⟨km, rfl, ?_⟩
  cases hsg : g.create_security_group vpc (orfmi_resource_name ctx "")
      ctx.config.tags ctx.config.platform with
  | error e => exact Or.inl ⟨e, rfl, by simp [orfmi_run_build, hsub, hvpc, hkp, hsg]⟩
  | ok sg =>
  refine Or.inr ⟨sg, rfl, ?_⟩
  cases hlk : g.lookup_source_ami ctx.config.source_ami with
  | error e =>
    exact Or.inl ⟨e, rfl, by simp [orfmi_run_build, hsub, hvpc, hkp, hsg, hlk]⟩
  | ok src =>
  refine Or.inr ⟨src, rfl, ?_⟩
  cases hlt : g.create_launch_template
      ⟨orfmi_resource_name ctx "", src, sg, orfmi_resource_name ctx "",
       ctx.config.iam_instance_profile⟩ ctx.config.tags with
  | error e =>
    exact Or.inl ⟨e, rfl, by
      simp [orfmi_run_build, orfmiPrefixTrace, hsub, hvpc, hkp, hsg, hlk, hlt]⟩
  | ok u =>
  cases u
  refine Or.inr ⟨rfl, ?_⟩
  cases hfl : g.create_fleet_instance (orfmi_resource_name ctx "")
      (⟨ctx.config.instance_types, sn :: rest⟩ : FleetConfig) with
  | error e =>
    refine Or.inl ⟨e, rfl, ?_⟩
    simp [orfmi_run_build, orfmi_launch_and_configure, orfmiPrefixTrace,
      hsub, hvpc, hkp, hsg, hlk, hlt, hfl]
  | ok iid =>
  refine Or.inr ⟨iid, rfl, ?_⟩
  cases hwt : g.wait_for_instance iid with
  | error e =>
    refine Or.inl ⟨e, rfl, ?_⟩
    simp [orfmi_run_build, orfmi_launch_and_configure, orfmiPrefixTrace,
      hsub, hvpc, hkp, hsg, hlk, hlt, hfl, hwt]
  | ok ip =>
  refine Or.inr ⟨ip, rfl, ?_⟩
  cases hex : ctx.setup_script_exists with
  | true =>
    by_cases hkm : km = ""
    · refine Or.inl ⟨rfl, hkm, ?_⟩
      simp [orfmi_run_build, orfmi_launch_and_configure, orfmiPrefixTrace,
        hsub, hvpc, hkp, hsg, hlk, hlt, hfl, hwt, hex, hkm]
    · cases hss : g.run_setup_script
          ⟨ip, km, ctx.config.ssh_username, ctx.config.ssh_timeout,
           ctx.config.ssh_retries⟩ ctx.setup_script ctx.extra_files with
      | error e =>
        refine Or.inr (Or.inl ⟨e, rfl, hkm, rfl, ?_⟩)
        simp [orfmi_run_build, orfmi_launch_and_configure, orfmiPrefixTrace,
          hsub, hvpc, hkp, hsg, hlk, hlt, hfl, hwt, hex, hkm, hss]
      | ok u =>
        cases u
        refine Or.inr (Or.inr ⟨_, Or.inl ⟨rfl, hkm, rfl, rfl⟩, ?_⟩)
        by_cases hiid : iid = ""
        · refine Or.inl ⟨hiid, ?_⟩
          subst hiid
          simp [orfmi_run_build, orfmi_launch_and_configure, orfmiPrefixTrace,
            hsub, hvpc, hkp, hsg, hlk, hlt, hfl, hwt, hex, hkm, hss]
        · cases hami : g.create_ami iid ctx.config.ami_name
              ctx.config.ami_description ctx.config.tags with
          | error e =>
            refine Or.inr (Or.inl ⟨e, hiid, rfl, ?_⟩)
            simp [orfmi_run_build, orfmi_launch_and_configure, orfmiPrefixTrace,
              hsub, hvpc, hkp, hsg, hlk, hlt, hfl, hwt, hex, hkm, hss, hiid, hami]
          | ok img =>
            refine Or.inr (Or.inr ⟨img, hiid, rfl, ?_⟩)
            simp [orfmi_run_build, orfmi_launch_and_configure, orfmiPrefixTrace,
              hsub, hvpc, hkp, hsg, hlk, hlt, hfl, hwt, hex, hkm, hss, hiid, hami]
  | false =>
    refine Or.inr (Or.inr ⟨_, Or.inr ⟨rfl, rfl⟩, ?_⟩)
    by_cases hiid : iid = ""
    · refine Or.inl ⟨hiid, ?_⟩
      subst hiid
      simp [orfmi_run_build, orfmi_launch_and_configure, orfmiPrefixTrace,
        hsub, hvpc, hkp, hsg, hlk, hlt, hfl, hwt, hex]
    · cases hami : g.create_ami iid ctx.config.ami_name
          ctx.config.ami_description ctx.config.tags with
      | error e =>
        refine Or.inr (Or.inl ⟨e, hiid, rfl, ?_⟩)
        simp [orfmi_run_build, orfmi_launch_and_configure, orfmiPrefixTrace,
          hsub, hvpc, hkp, hsg, hlk, hlt, hfl, hwt, hex, hiid, hami]
      | ok img =>
        refine Or.inr (Or.inr ⟨img, hiid, rfl, ?_⟩)
        simp [orfmi_run_build, orfmi_launch_and_configure, orfmiPrefixTrace,
          hsub, hvpc, hkp, hsg, hlk, hlt, hfl, hwt, hex, hiid, hami]

lemma orfmi_cleanup_countP_dkp (g : Gateway) (ctx : BuildContext) (s : BuildState) :
    List.countP (fun ev => ev.isDeleteKeyPair) (orfmi_cleanup g ctx s) = 1 := by
  rw [orfmi_cleanup_eq]
  obtain ⟨i, sgid, k, r⟩ := s
  cases i <;> cases sgid <;>
    (simp [List.countP_append, List.countP_cons, Event.isDeleteKeyPair]
     try (split_ifs <;> simp))

lemma orfmi_cleanup_countP_dlt (g : Gateway) (ctx : BuildContext) (s : BuildState) :
    List.countP (fun ev => ev.isDeleteLaunchTemplate) (orfmi_cleanup g ctx s) = 1 := by
  rw [orfmi_cleanup_eq]
  obtain ⟨i, sgid, k, r⟩ := s
  cases i <;> cases sgid <;>
    (simp [List.countP_append, List.countP_cons, Event.isDeleteLaunchTemplate]
     try (split_ifs <;> simp))

lemma orfmi_cleanup_no_terminate (g : Gateway) (ctx : BuildContext) (s : BuildState)
    (h : s.instance_id = none) :
    ∀ ev ∈ orfmi_cleanup g ctx s, ev.isTerminate = false := by
  rw [orfmi_cleanup_eq, h]
  obtain ⟨i, sgid, k, r⟩ := s
  cases sgid <;> simp [Event.isTerminate]

lemma orfmi_pipeline_no_cleanup (g : Gateway) (ctx : BuildContext) :
    ∀ ev ∈ (orfmi_run_build g ctx {}).2.1, ev.isCleanup = false := by
  have h := orfmi_run_build_spec g ctx
  simp only [OrfmiOutcome] at h
  rcases h with ⟨hsub, hout⟩ |
    ⟨sn, rest, hsub, ⟨e1, hc, hout⟩ |
      ⟨vpc, hvpc, ⟨e1, hc, hout⟩ |
        ⟨km, hkp, ⟨e1, hc, hout⟩ |
          ⟨sg, hsg, ⟨e1, hc, hout⟩ |
            ⟨src, hlk, ⟨e1, hc, hout⟩ |
              ⟨hlt, ⟨e1, hc, hout⟩ |
                ⟨iid, hfl, ⟨e1, hc, hout⟩ |
                  ⟨ip, hwt, ⟨hex, hkm, hout⟩ |
                    ⟨e1, hex, hkm, hc, hout⟩ |
                    ⟨tr2, ⟨hex, hkm, hss, rfl⟩ | ⟨hex, rfl⟩,
                      ⟨hiid, hout⟩ | ⟨e1, hiid, hc, hout⟩ |
                      ⟨img, hiid, hami, hout⟩⟩⟩⟩⟩⟩⟩⟩⟩⟩ <;>
  rw [hout] <;>
  simp [orfmiPrefixTrace, Event.isCleanup]

lemma isDeleteKeyPair_isCleanup (ev : Event) :
    ev.isDeleteKeyPair = true → ev.isCleanup = true := by
  cases ev <;> simp [Event.isDeleteKeyPair, Event.isCleanup]

lemma isDeleteLaunchTemplate_isCleanup (ev : Event) :
    ev.isDeleteLaunchTemplate = true → ev.isCleanup = true := by
  cases ev <;> simp [Event.isDeleteLaunchTemplate, Event.isCleanup]

lemma isTerminate_isCleanup (ev : Event) :
    ev.isTerminate = true → ev.isCleanup = true := by
  cases ev <;> simp [Event.isTerminate, Event.isCleanup]

/-- C1: for every configuration and collaborator behaviour, `build` runs
the cleanup stage exactly once, after the pipeline and on the pipeline's
final `BuildState`, and any pipeline error is re-raised unchanged after
cleanup: the build trace is exactly the pipeline trace followed by the
cleanup trace of the pipeline's final state, the cleanup-only operations
(key-pair and launch-template deletion) occur exactly once in it on
every exit path, and when the pipeline raised `e` the build returns
`Except.error e`. -/
theorem orfmi_build_always_cleanup (g : Gateway) (ctx : BuildContext) :
    (orfmi_build g ctx).2 =
      (orfmi_run_build g ctx {}).2.1 ++
        orfmi_cleanup g ctx (orfmi_run_build g ctx {}).1
    ∧ List.countP (fun ev => ev.isDeleteKeyPair) (orfmi_build g ctx).2 = 1
    ∧ List.countP (fun ev => ev.isDeleteLaunchTemplate) (orfmi_build g ctx).2 = 1
    ∧ ∀ e, (orfmi_run_build g ctx {}).2.2 = some e →
        (orfmi_build g ctx).1 = Except.error e := by
  rcases hrb : orfmi_run_build g ctx {} with ⟨st, tr, err⟩
  have hno := orfmi_pipeline_no_cleanup g ctx
  rw [hrb] at hno
  simp only at hno
  have htrace : (orfmi_build g ctx).2 = tr ++ orfmi_cleanup g ctx st := by
    cases err with
    | some e => simp [orfmi_build, hrb]
    | none =>
      cases hres : st.result with
      | none => simp [orfmi_build, hrb, hres]
      | some r =>
        by_cases hr : r = "" <;> simp [orfmi_build, hrb, hres, hr]
  have h0 : ∀ p : Event → Bool, (∀ ev, p ev = true → ev.isCleanup = true) →
      List.countP p tr = 0 := by
    intro p hp
    refine List.countP_eq_zero.mpr ?_
    intro a ha hpa
    have h1 := hno a ha
    rw [hp a hpa] at h1
    exact absurd h1 (by simp)
  refine ⟨htrace, ?_, ?_, ?_⟩
  · rw [htrace, List.countP_append, h0 _ isDeleteKeyPair_isCleanup,
      orfmi_cleanup_countP_dkp]
  · rw [htrace, List.countP_append, h0 _ isDeleteLaunchTemplate_isCleanup,
      orfmi_cleanup_countP_dlt]
  · intro e he
    simp only at he
    subst he
    simp [orfmi_build, hrb]

/-- Two gateways that agree on all nine pipeline operations (they may
differ arbitrarily on the underlying cleanup calls). -/
def Gateway.samePipelineOps (g g' : Gateway) : Prop :=
  g.get_vpc_from_subnet = g'.get_vpc_from_subnet ∧
  g.create_key_pair = g'.create_key_pair ∧
  g.create_security_group = g'.create_security_group ∧
  g.lookup_source_ami = g'.lookup_source_ami ∧
  g.create_launch_template = g'.create_launch_template ∧
  g.create_fleet_instance = g'.create_fleet_instance ∧
  g.wait_for_instance = g'.wait_for_instance ∧
  g.run_setup_script = g'.run_setup_script ∧
  g.create_ami = g'.create_ami

lemma orfmi_run_build_congr (g g' : Gateway) (ctx : BuildContext)
    (h : Gateway.samePipelineOps g g') (s : BuildState) :
    orfmi_run_build g ctx s = orfmi_run_build g' ctx s := by
  obtain ⟨h1, h2, h3, h4, h5, h6, h7, h8, h9⟩ := h
  simp only [orfmi_run_build, orfmi_launch_and_configure,
    h1, h2, h3, h4, h5, h6, h7, h8, h9]

lemma orfmi_cleanup_countP_term (g : Gateway) (ctx : BuildContext)
    (s : BuildState) (iid : String) (h : s.instance_id = some iid)
    (hne : iid ≠ "") :
    List.countP (fun ev => ev.isTerminate) (orfmi_cleanup g ctx s) = 1 := by
  rw [orfmi_cleanup_eq, h]
  cases s.sg_id <;>
    simp [hne, List.countP_append, List.countP_cons, Event.isTerminate]

lemma orfmi_cleanup_countP_dsg (g : Gateway) (ctx : BuildContext)
    (s : BuildState) (sgId : String) (h : s.sg_id = some sgId)
    (hne : sgId ≠ "") :
    List.countP (fun ev => ev.isDeleteSecurityGroup) (orfmi_cleanup g ctx s) = 1 := by
  rw [orfmi_cleanup_eq, h]
  cases s.instance_id <;>
    simp [hne, List.countP_append, List.countP_cons,
      Event.isDeleteSecurityGroup]

/-- C2: every cleanup step is individually guarded.  For any two
gateways that agree on the pipeline operations but may fail arbitrarily
(and differently) on the underlying termination/deletion calls, the
cleanup engine performs exactly the same steps — the template and key
deletions always happen, termination and security-group deletion happen
exactly once whenever the corresponding id was recorded as a non-empty
(truthy) string — cleanup raises nothing (its trace is all it
produces), and the build's overall result is identical, so a cleanup
failure can never replace the pipeline's result or original error. -/
theorem orfmi_cleanup_guarded (g g' : Gateway) (ctx : BuildContext)
    (s : BuildState) (h : Gateway.samePipelineOps g g') :
    orfmi_cleanup g ctx s = orfmi_cleanup g' ctx s
    ∧ List.countP (fun ev => ev.isDeleteKeyPair) (orfmi_cleanup g ctx s) = 1
    ∧ List.countP (fun ev => ev.isDeleteLaunchTemplate) (orfmi_cleanup g ctx s) = 1
    ∧ (∀ iid, s.instance_id = some iid → iid ≠ "" →
        List.countP (fun ev => ev.isTerminate) (orfmi_cleanup g ctx s) = 1)
    ∧ (∀ sgId, s.sg_id = some sgId → sgId ≠ "" →
        List.countP (fun ev => ev.isDeleteSecurityGroup) (orfmi_cleanup g ctx s) = 1)
    ∧ (orfmi_build g ctx).1 = (orfmi_build g' ctx).1 := by
  refine ⟨by rw [orfmi_cleanup_eq, orfmi_cleanup_eq],
    orfmi_cleanup_countP_dkp g ctx s, orfmi_cleanup_countP_dlt g ctx s,
    fun iid hi hne => orfmi_cleanup_countP_term g ctx s iid hi hne,
    fun sgId hs hne => orfmi_cleanup_countP_dsg g ctx s sgId hs hne, ?_⟩
  have hc := orfmi_run_build_congr g g' ctx h {}
  rcases hrb : orfmi_run_build g' ctx {} with ⟨st, tr, err⟩
  rw [hrb] at hc
  cases err with
  | some e => simp [orfmi_build, hc, hrb]
  | none =>
    cases hres : st.result with
    | none => simp [orfmi_build, hc, hrb, hres]
    | some r => by_cases hr : r = "" <;> simp [orfmi_build, hc, hrb, hres, hr]

lemma orfmi_build_trace_eq (g : Gateway) (ctx : BuildContext) :
    (orfmi_build g ctx).2 =
      (orfmi_run_build g ctx {}).2.1 ++
        orfmi_cleanup g ctx (orfmi_run_build g ctx {}).1 := by
  rcases hrb : orfmi_run_build g ctx {} with ⟨st, tr, err⟩
  cases err with
  | some e => simp [orfmi_build, hrb]
  | none =>
    cases hres : st.result with
    | none => simp [orfmi_build, hrb, hres]
    | some r => by_cases hr : r = "" <;> simp [orfmi_build, hrb, hres, hr]

lemma orfmi_pipeline_countP_zero (g : Gateway) (ctx : BuildContext)
    (p : Event → Bool) (hp : ∀ ev, p ev = true → ev.isCleanup = true) :
    List.countP p (orfmi_run_build g ctx {}).2.1 = 0 := by
  refine List.countP_eq_zero.mpr ?_
  intro a ha hpa
  have h1 := orfmi_pipeline_no_cleanup g ctx a ha
  rw [hp a hpa] at h1
  exact absurd h1 (by simp)

lemma orfmi_instance_none_of_fleet_err (g : Gateway) (ctx : BuildContext)
    (e : String)
    (hfe : g.create_fleet_instance (orfmi_resource_name ctx "")
      ⟨ctx.config.instance_types, ctx.config.subnet_ids⟩ = Except.error e) :
    (orfmi_run_build g ctx {}).1.instance_id = none := by
  have h := orfmi_run_build_spec g ctx
  simp only [OrfmiOutcome] at h
  rcases h with ⟨hsub, hout⟩ |
    ⟨sn, rest, hsub, ⟨e1, hc, hout⟩ |
      ⟨vpc, hvpc, ⟨e1, hc, hout⟩ |
        ⟨km, hkp, ⟨e1, hc, hout⟩ |
          ⟨sg, hsg, ⟨e1, hc, hout⟩ |
            ⟨src, hlk, ⟨e1, hc, hout⟩ |
              ⟨hlt, ⟨e1, hc, hout⟩ |
                ⟨iid, hfl, ⟨e1, hc, hout⟩ |
                  ⟨ip, hwt, ⟨hexT, hkm, hout⟩ |
                    ⟨e1, hexT, hkm, hc, hout⟩ |
                    ⟨tr2, ⟨hexT, hkm, hss, rfl⟩ | ⟨hexF, rfl⟩,
                      ⟨hiid, hout⟩ | ⟨e1, hiid, hc, hout⟩ |
                      ⟨img, hiid, hami, hout⟩⟩⟩⟩⟩⟩⟩⟩⟩⟩ <;>
  first
    | (rw [hfe] at hfl; simp at hfl)
    | rw [hout]

/-- C3 (corrected): the cleanup sequence is exactly — terminate the
instance iff a non-empty (truthy) instance id was recorded, then delete
the launch template by its deterministic name, then delete the key pair
by its deterministic name, then delete the security group iff a
non-empty (truthy) group id was recorded — and nothing else; and when
the fleet request fails, the whole build performs no termination while
the template and key deletions each still happen exactly once.  The
original claim's "iff an instance id was recorded" is refuted by
`orfmi_cleanup_skips_empty_ids`: a recorded empty string is falsy in
Python, so `_cleanup` skips the step. -/
theorem orfmi_cleanup_exact_sequence (g : Gateway) (ctx : BuildContext)
    (s : BuildState) :
    orfmi_cleanup g ctx s =
      (match s.instance_id with
       | some iid => if iid = "" then [] else [Event.terminateInstance iid]
       | none => [])
      ++ [Event.deleteLaunchTemplate (orfmi_resource_name ctx ""),
          Event.deleteKeyPair (orfmi_resource_name ctx "")]
      ++ (match s.sg_id with
          | some sgId =>
              if sgId = "" then [] else [Event.deleteSecurityGroup sgId]
          | none => [])
    ∧ ∀ e, g.create_fleet_instance (orfmi_resource_name ctx "")
          ⟨ctx.config.instance_types, ctx.config.subnet_ids⟩ = Except.error e →
        (∀ ev ∈ (orfmi_build g ctx).2, ev.isTerminate = false)
        ∧ List.countP (fun ev => ev.isDeleteLaunchTemplate) (orfmi_build g ctx).2 = 1
        ∧ List.countP (fun ev => ev.isDeleteKeyPair) (orfmi_build g ctx).2 = 1 := by
  refine ⟨orfmi_cleanup_eq g ctx s, ?_⟩
  intro e hfe
  have hin := orfmi_instance_none_of_fleet_err g ctx e hfe
  have htr := orfmi_build_trace_eq g ctx
  refine ⟨?_, ?_, ?_⟩
  · intro ev hmem
    rw [htr, List.mem_append] at hmem
    rcases hmem with hmem | hmem
    · by_contra hterm
      simp only [Bool.not_eq_false] at hterm
      have h1 := orfmi_pipeline_no_cleanup g ctx ev hmem
      rw [isTerminate_isCleanup ev hterm] at h1
      exact absurd h1 (by simp)
    · exact orfmi_cleanup_no_terminate g ctx _ hin ev hmem
  · rw [htr, List.countP_append,
      orfmi_pipeline_countP_zero g ctx _ isDeleteLaunchTemplate_isCleanup,
      orfmi_cleanup_countP_dlt]
  · rw [htr, List.countP_append,
      orfmi_pipeline_countP_zero g ctx _ isDeleteKeyPair_isCleanup,
      orfmi_cleanup_countP_dkp]

/-- C5: `build` returns normally only with the image id the pipeline
recorded in `BuildState.result`; if the pipeline returned without
raising but with no (or an empty) recorded result, `build` raises the
generic "no AMI ID returned" error instead of returning. -/
theorem orfmi_build_requires_result (g : Gateway) (ctx : BuildContext) :
    (∀ r, (orfmi_build g ctx).1 = Except.ok r →
        (orfmi_run_build g ctx {}).1.result = some r)
    ∧ ((orfmi_run_build g ctx {}).2.2 = none →
        (orfmi_run_build g ctx {}).1.result.getD "" = "" →
        (orfmi_build g ctx).1 =
          Except.error "AMI build failed: no AMI ID returned") := by
  rcases hrb : orfmi_run_build g ctx {} with ⟨st, tr, err⟩
  constructor
  · intro r hok
    cases err with
    | some e => simp [orfmi_build, hrb] at hok
    | none =>
      cases hres : st.result with
      | none => simp [orfmi_build, hrb, hres] at hok
      | some r' =>
        by_cases hr : r' = ""
        · simp [orfmi_build, hrb, hres, hr] at hok
        · simp only [orfmi_build, hrb] at hok
          rw [hres] at hok
          simp [hr] at hok
          simp [hres, hok]
  · intro herr hres
    simp only at herr hres
    subst herr
    cases hr2 : st.result with
    | none => simp [orfmi_build, hrb, hr2]
    | some r =>
      rw [hr2] at hres
      simp at hres
      simp [orfmi_build, hrb, hr2, hres]

lemma orfmi_cleanup_no_script (g : Gateway) (ctx : BuildContext) (s : BuildState) :
    ∀ ev ∈ orfmi_cleanup g ctx s, ev.isRunSetupScript = false := by
  rw [orfmi_cleanup_eq]
  obtain ⟨i, sgid, k, r⟩ := s
  cases i <;> cases sgid <;> simp [Event.isRunSetupScript]
  all_goals rintro ev (⟨-, rfl⟩ | rfl | rfl | ⟨-, rfl⟩) <;> rfl

lemma orfmi_cleanup_no_ami (g : Gateway) (ctx : BuildContext) (s : BuildState) :
    ∀ ev ∈ orfmi_cleanup g ctx s, ev.isCreateAmi = false := by
  rw [orfmi_cleanup_eq]
  obtain ⟨i, sgid, k, r⟩ := s
  cases i <;> cases sgid <;> simp [Event.isCreateAmi]
  all_goals rintro ev (⟨-, rfl⟩ | rfl | rfl | ⟨-, rfl⟩) <;> rfl

lemma orfmi_pipeline_no_script (g : Gateway) (ctx : BuildContext)
    (hnx : ctx.setup_script_exists = false) :
    ∀ ev ∈ (orfmi_run_build g ctx {}).2.1, ev.isRunSetupScript = false := by
  have h := orfmi_run_build_spec g ctx
  simp only [OrfmiOutcome] at h
  rcases h with ⟨hsub, hout⟩ |
    ⟨sn, rest, hsub, ⟨e1, hc, hout⟩ |
      ⟨vpc, hvpc, ⟨e1, hc, hout⟩ |
        ⟨km, hkp, ⟨e1, hc, hout⟩ |
          ⟨sg, hsg, ⟨e1, hc, hout⟩ |
            ⟨src, hlk, ⟨e1, hc, hout⟩ |
              ⟨hlt, ⟨e1, hc, hout⟩ |
                ⟨iid, hfl, ⟨e1, hc, hout⟩ |
                  ⟨ip, hwt, ⟨hexT, hkm, hout⟩ |
                    ⟨e1, hexT, hkm, hc, hout⟩ |
                    ⟨tr2, ⟨hexT, hkm, hss, rfl⟩ | ⟨hexF, rfl⟩,
                      ⟨hiid, hout⟩ | ⟨e1, hiid, hc, hout⟩ |
                      ⟨img, hiid, hami, hout⟩⟩⟩⟩⟩⟩⟩⟩⟩⟩ <;>
  first
    | exact absurd hexT (by simp [hnx])
    | (rw [hout]; simp [orfmiPrefixTrace, Event.isRunSetupScript])

lemma orfmi_success_result (g : Gateway) (ctx : BuildContext)
    (hok : (orfmi_run_build g ctx {}).2.2 = none) :
    ∃ img, (orfmi_run_build g ctx {}).1.result = some img
      ∧ (∃ ev ∈ (orfmi_run_build g ctx {}).2.1, ev.isCreateAmi = true)
      ∧ (img ≠ "" → (orfmi_build g ctx).1 = Except.ok img) := by
  have h := orfmi_run_build_spec g ctx
  simp only [OrfmiOutcome] at h
  rcases h with ⟨hsub, hout⟩ |
    ⟨sn, rest, hsub, ⟨e1, hc, hout⟩ |
      ⟨vpc, hvpc, ⟨e1, hc, hout⟩ |
        ⟨km, hkp, ⟨e1, hc, hout⟩ |
          ⟨sg, hsg, ⟨e1, hc, hout⟩ |
            ⟨src, hlk, ⟨e1, hc, hout⟩ |
              ⟨hlt, ⟨e1, hc, hout⟩ |
                ⟨iid, hfl, ⟨e1, hc, hout⟩ |
                  ⟨ip, hwt, ⟨hexT, hkm, hout⟩ |
                    ⟨e1, hexT, hkm, hc, hout⟩ |
                    ⟨tr2, ⟨hexT, hkm, hss, rfl⟩ | ⟨hexF, rfl⟩,
                      ⟨hiid, hout⟩ | ⟨e1, hiid, hc, hout⟩ |
                      ⟨img, hiid, hami, hout⟩⟩⟩⟩⟩⟩⟩⟩⟩⟩ <;>
  first
    | (rw [hout] at hok; exact Option.noConfusion hok)
    | (refine ⟨img, by rw [hout], ?_, ?_⟩
       · rw [hout]
         exact ⟨Event.createAmi iid ctx.config.ami_name
           ctx.config.ami_description ctx.config.tags, by simp, rfl⟩
       · intro hne
         simp [orfmi_build, hout, hne])

lemma orfmi_script_before_ami (g : Gateway) (ctx : BuildContext)
    (hex : ctx.setup_script_exists = true) :
    ∀ ev2 ∈ (orfmi_run_build g ctx {}).2.1, ev2.isCreateAmi = true →
      ∃ l1 ev1 l2, (orfmi_run_build g ctx {}).2.1 = l1 ++ ev1 :: l2
        ∧ ev1.isRunSetupScript = true ∧ ev2 ∈ l2 := by
  have h := orfmi_run_build_spec g ctx
  simp only [OrfmiOutcome] at h
  rcases h with ⟨hsub, hout⟩ |
    ⟨sn, rest, hsub, ⟨e1, hc, hout⟩ |
      ⟨vpc, hvpc, ⟨e1, hc, hout⟩ |
        ⟨km, hkp, ⟨e1, hc, hout⟩ |
          ⟨sg, hsg, ⟨e1, hc, hout⟩ |
            ⟨src, hlk, ⟨e1, hc, hout⟩ |
              ⟨hlt, ⟨e1, hc, hout⟩ |
                ⟨iid, hfl, ⟨e1, hc, hout⟩ |
                  ⟨ip, hwt, ⟨hexT, hkm, hout⟩ |
                    ⟨e1, hexT, hkm, hss, hout⟩ |
                    ⟨tr2, ⟨hexT, hkm, hss, rfl⟩ | ⟨hexF, rfl⟩,
                      ⟨hiid, hout⟩ | ⟨e1, hiid, hami, hout⟩ |
                      ⟨img, hiid, hami, hout⟩⟩⟩⟩⟩⟩⟩⟩⟩⟩
  · intro ev2 hmem hca
    rw [hout] at hmem
    simp only [orfmiPrefixTrace, List.cons_append, List.nil_append] at hmem
    fin_cases hmem <;> simp [Event.isCreateAmi] at hca
  · intro ev2 hmem hca
    rw [hout] at hmem
    simp only [orfmiPrefixTrace, List.cons_append, List.nil_append] at hmem
    fin_cases hmem <;> simp [Event.isCreateAmi] at hca
  · intro ev2 hmem hca
    rw [hout] at hmem
    simp only [orfmiPrefixTrace, List.cons_append, List.nil_append] at hmem
    fin_cases hmem <;> simp [Event.isCreateAmi] at hca
  · intro ev2 hmem hca
    rw [hout] at hmem
    simp only [orfmiPrefixTrace, List.cons_append, List.nil_append] at hmem
    fin_cases hmem <;> simp [Event.isCreateAmi] at hca
  · intro ev2 hmem hca
    rw [hout] at hmem
    simp only [orfmiPrefixTrace, List.cons_append, List.nil_append] at hmem
    fin_cases hmem <;> simp [Event.isCreateAmi] at hca
  · intro ev2 hmem hca
    rw [hout] at hmem
    simp only [orfmiPrefixTrace, List.cons_append, List.nil_append] at hmem
    fin_cases hmem <;> simp [Event.isCreateAmi] at hca
  · intro ev2 hmem hca
    rw [hout] at hmem
    simp only [orfmiPrefixTrace, List.cons_append, List.nil_append] at hmem
    fin_cases hmem <;> simp [Event.isCreateAmi] at hca
  · intro ev2 hmem hca
    rw [hout] at hmem
    simp only [orfmiPrefixTrace, List.cons_append, List.nil_append] at hmem
    fin_cases hmem <;> simp [Event.isCreateAmi] at hca
  · intro ev2 hmem hca
    rw [hout] at hmem
    simp only [orfmiPrefixTrace, List.cons_append, List.nil_append] at hmem
    fin_cases hmem <;> simp [Event.isCreateAmi] at hca
  · intro ev2 hmem hca
    rw [hout] at hmem
    simp only [orfmiPrefixTrace, List.cons_append, List.nil_append] at hmem
    fin_cases hmem <;> simp [Event.isCreateAmi] at hca
  · intro ev2 hmem hca
    rw [hout] at hmem
    simp only [orfmiPrefixTrace, List.cons_append, List.nil_append] at hmem
    fin_cases hmem <;> simp [Event.isCreateAmi] at hca
  · intro ev2 hmem hca
    rw [hout] at hmem ⊢
    simp only [orfmiPrefixTrace, List.cons_append, List.nil_append] at hmem
    refine ⟨[Event.getVpc sn,
        Event.createKeyPair (orfmi_resource_name ctx "") ctx.config.tags,
        Event.createSecurityGroup vpc (orfmi_resource_name ctx "")
          ctx.config.tags ctx.config.platform,
        Event.lookupSourceAmi ctx.config.source_ami,
        Event.createLaunchTemplate
          ⟨orfmi_resource_name ctx "", src, sg, orfmi_resource_name ctx "",
           ctx.config.iam_instance_profile⟩ ctx.config.tags,
        Event.createFleetInstance (orfmi_resource_name ctx "")
          ⟨ctx.config.instance_types, ctx.config.subnet_ids⟩,
        Event.waitForInstance iid],
      Event.runSetupScript
        ⟨ip, km, ctx.config.ssh_username, ctx.config.ssh_timeout,
         ctx.config.ssh_retries⟩ ctx.setup_script ctx.extra_files,
      [Event.createAmi iid ctx.config.ami_name ctx.config.ami_description
        ctx.config.tags], ?_, rfl, ?_⟩
    · simp [orfmiPrefixTrace]
    · fin_cases hmem <;> simp [Event.isCreateAmi] at hca ⊢
  · intro ev2 hmem hca
    rw [hout] at hmem ⊢
    simp only [orfmiPrefixTrace, List.cons_append, List.nil_append] at hmem
    refine ⟨[Event.getVpc sn,
        Event.createKeyPair (orfmi_resource_name ctx "") ctx.config.tags,
        Event.createSecurityGroup vpc (orfmi_resource_name ctx "")
          ctx.config.tags ctx.config.platform,
        Event.lookupSourceAmi ctx.config.source_ami,
        Event.createLaunchTemplate
          ⟨orfmi_resource_name ctx "", src, sg, orfmi_resource_name ctx "",
           ctx.config.iam_instance_profile⟩ ctx.config.tags,
        Event.createFleetInstance (orfmi_resource_name ctx "")
          ⟨ctx.config.instance_types, ctx.config.subnet_ids⟩,
        Event.waitForInstance iid],
      Event.runSetupScript
        ⟨ip, km, ctx.config.ssh_username, ctx.config.ssh_timeout,
         ctx.config.ssh_retries⟩ ctx.setup_script ctx.extra_files,
      [Event.createAmi iid ctx.config.ami_name ctx.config.ami_description
        ctx.config.tags], ?_, rfl, ?_⟩
    · simp [orfmiPrefixTrace]
    · fin_cases hmem <;> simp [Event.isCreateAmi] at hca ⊢
  · simp [hex] at hexF
  · simp [hex] at hexF
  · simp [hex] at hexF

/-- C6: the setup script is optional.  When the script path does not
exist on local storage the Remote Provisioner is never invoked anywhere
in the build, and a pipeline that completes still records an image id
and the build returns it; when the path exists, any image creation in
the pipeline trace is preceded by a Remote Provisioner invocation. -/
theorem orfmi_setup_script_optional (g : Gateway) (ctx : BuildContext) :
    (ctx.setup_script_exists = false →
      (∀ ev ∈ (orfmi_build g ctx).2, ev.isRunSetupScript = false)
      ∧ ((orfmi_run_build g ctx {}).2.2 = none →
         ∃ img, (orfmi_run_build g ctx {}).1.result = some img
           ∧ (∃ ev ∈ (orfmi_run_build g ctx {}).2.1, ev.isCreateAmi = true)
           ∧ (img ≠ "" → (orfmi_build g ctx).1 = Except.ok img)))
    ∧ (ctx.setup_script_exists = true →
      ∀ ev2 ∈ (orfmi_run_build g ctx {}).2.1, ev2.isCreateAmi = true →
        ∃ l1 ev1 l2, (orfmi_run_build g ctx {}).2.1 = l1 ++ ev1 :: l2
          ∧ ev1.isRunSetupScript = true ∧ ev2 ∈ l2) := by
  constructor
  · intro hnx
    constructor
    · intro ev hmem
      rw [orfmi_build_trace_eq, List.mem_append] at hmem
      rcases hmem with hmem | hmem
      · exact orfmi_pipeline_no_script g ctx hnx ev hmem
      · exact orfmi_cleanup_no_script g ctx _ ev hmem
    · exact orfmi_success_result g ctx
  · exact orfmi_script_before_ami g ctx

lemma orfmi_trace_chain (g : Gateway) (ctx : BuildContext) :
    List.Chain' (· < ·) ((orfmi_run_build g ctx {}).2.1.map stepIndex) := by
  have h := orfmi_run_build_spec g ctx
  simp only [OrfmiOutcome] at h
  rcases h with ⟨hsub, hout⟩ |
    ⟨sn, rest, hsub, ⟨e1, hc, hout⟩ |
      ⟨vpc, hvpc, ⟨e1, hc, hout⟩ |
        ⟨km, hkp, ⟨e1, hc, hout⟩ |
          ⟨sg, hsg, ⟨e1, hc, hout⟩ |
            ⟨src, hlk, ⟨e1, hc, hout⟩ |
              ⟨hlt, ⟨e1, hc, hout⟩ |
                ⟨iid, hfl, ⟨e1, hc, hout⟩ |
                  ⟨ip, hwt, ⟨hexT, hkm, hout⟩ |
                    ⟨e1, hexT, hkm, hss, hout⟩ |
                    ⟨tr2, ⟨hexT, hkm, hss, rfl⟩ | ⟨hexF, rfl⟩,
                      ⟨hiid, hout⟩ | ⟨e1, hiid, hami, hout⟩ |
                      ⟨img, hiid, hami, hout⟩⟩⟩⟩⟩⟩⟩⟩⟩⟩ <;>
  rw [hout] <;>
  simp [orfmiPrefixTrace, stepIndex, List.chain'_cons]

lemma orfmi_key_material_mono (g : Gateway) (ctx : BuildContext) :
    (∃ ev ∈ (orfmi_run_build g ctx {}).2.1, 1 < stepIndex ev) →
      (orfmi_run_build g ctx {}).1.key_material.isSome = true := by
  have h := orfmi_run_build_spec g ctx
  simp only [OrfmiOutcome] at h
  rcases h with ⟨hsub, hout⟩ |
    ⟨sn, rest, hsub, ⟨e1, hc, hout⟩ |
      ⟨vpc, hvpc, ⟨e1, hc, hout⟩ |
        ⟨km, hkp, ⟨e1, hc, hout⟩ |
          ⟨sg, hsg, ⟨e1, hc, hout⟩ |
            ⟨src, hlk, ⟨e1, hc, hout⟩ |
              ⟨hlt, ⟨e1, hc, hout⟩ |
                ⟨iid, hfl, ⟨e1, hc, hout⟩ |
                  ⟨ip, hwt, ⟨hexT, hkm, hout⟩ |
                    ⟨e1, hexT, hkm, hss, hout⟩ |
                    ⟨tr2, ⟨hexT, hkm, hss, rfl⟩ | ⟨hexF, rfl⟩,
                      ⟨hiid, hout⟩ | ⟨e1, hiid, hami, hout⟩ |
                      ⟨img, hiid, hami, hout⟩⟩⟩⟩⟩⟩⟩⟩⟩⟩ <;>
  first
    | (intro _; rw [hout]; try rfl
       done)
    | (rintro ⟨ev, hmem, hgt⟩
       rw [hout] at hmem
       simp only [orfmiPrefixTrace, List.cons_append, List.nil_append] at hmem
       fin_cases hmem <;> simp [stepIndex] at hgt)

lemma orfmi_sg_mono (g : Gateway) (ctx : BuildContext) :
    (∃ ev ∈ (orfmi_run_build g ctx {}).2.1, 2 < stepIndex ev) →
      (orfmi_run_build g ctx {}).1.sg_id.isSome = true := by
  have h := orfmi_run_build_spec g ctx
  simp only [OrfmiOutcome] at h
  rcases h with ⟨hsub, hout⟩ |
    ⟨sn, rest, hsub, ⟨e1, hc, hout⟩ |
      ⟨vpc, hvpc, ⟨e1, hc, hout⟩ |
        ⟨km, hkp, ⟨e1, hc, hout⟩ |
          ⟨sg, hsg, ⟨e1, hc, hout⟩ |
            ⟨src, hlk, ⟨e1, hc, hout⟩ |
              ⟨hlt, ⟨e1, hc, hout⟩ |
                ⟨iid, hfl, ⟨e1, hc, hout⟩ |
                  ⟨ip, hwt, ⟨hexT, hkm, hout⟩ |
                    ⟨e1, hexT, hkm, hss, hout⟩ |
                    ⟨tr2, ⟨hexT, hkm, hss, rfl⟩ | ⟨hexF, rfl⟩,
                      ⟨hiid, hout⟩ | ⟨e1, hiid, hami, hout⟩ |
                      ⟨img, hiid, hami, hout⟩⟩⟩⟩⟩⟩⟩⟩⟩⟩ <;>
  first
    | (intro _; rw [hout]; try rfl
       done)
    | (rintro ⟨ev, hmem, hgt⟩
       rw [hout] at hmem
       simp only [orfmiPrefixTrace, List.cons_append, List.nil_append] at hmem
       fin_cases hmem <;> simp [stepIndex] at hgt)

lemma orfmi_instance_mono (g : Gateway) (ctx : BuildContext) :
    (∃ ev ∈ (orfmi_run_build g ctx {}).2.1, 5 < stepIndex ev) →
      (orfmi_run_build g ctx {}).1.instance_id.isSome = true := by
  have h := orfmi_run_build_spec g ctx
  simp only [OrfmiOutcome] at h
  rcases h with ⟨hsub, hout⟩ |
    ⟨sn, rest, hsub, ⟨e1, hc, hout⟩ |
      ⟨vpc, hvpc, ⟨e1, hc, hout⟩ |
        ⟨km, hkp, ⟨e1, hc, hout⟩ |
          ⟨sg, hsg, ⟨e1, hc, hout⟩ |
            ⟨src, hlk, ⟨e1, hc, hout⟩ |
              ⟨hlt, ⟨e1, hc, hout⟩ |
                ⟨iid, hfl, ⟨e1, hc, hout⟩ |
                  ⟨ip, hwt, ⟨hexT, hkm, hout⟩ |
                    ⟨e1, hexT, hkm, hss, hout⟩ |
                    ⟨tr2, ⟨hexT, hkm, hss, rfl⟩ | ⟨hexF, rfl⟩,
                      ⟨hiid, hout⟩ | ⟨e1, hiid, hami, hout⟩ |
                      ⟨img, hiid, hami, hout⟩⟩⟩⟩⟩⟩⟩⟩⟩⟩ <;>
  first
    | (intro _; rw [hout]; try rfl
       done)
    | (rintro ⟨ev, hmem, hgt⟩
       rw [hout] at hmem
       simp only [orfmiPrefixTrace, List.cons_append, List.nil_append] at hmem
       fin_cases hmem <;> simp [stepIndex] at hgt)

lemma orfmi_err_characterization (g : Gateway) (ctx : BuildContext) :
    ∀ e, (orfmi_run_build g ctx {}).2.2 = some e →
      ((orfmi_run_build g ctx {}).2.1 = [] ∧ e = "list index out of range")
      ∨ ∃ pre lastEv, (orfmi_run_build g ctx {}).2.1 = pre ++ [lastEv]
          ∧ (∀ ev ∈ pre, evErr g ev = none)
          ∧ (evErr g lastEv = some e
             ∨ (evErr g lastEv = none
                ∧ (e = "Key material not set"
                   ∨ e = "Instance ID not set after launch"))) := by
  have h := orfmi_run_build_spec g ctx
  simp only [OrfmiOutcome] at h
  rcases h with ⟨hsub, hout⟩ |
    ⟨sn, rest, hsub, ⟨e1, hc, hout⟩ |
      ⟨vpc, hvpc, ⟨e1, hc, hout⟩ |
        ⟨km, hkp, ⟨e1, hc, hout⟩ |
          ⟨sg, hsg, ⟨e1, hc, hout⟩ |
            ⟨src, hlk, ⟨e1, hc, hout⟩ |
              ⟨hlt, ⟨e1, hc, hout⟩ |
                ⟨iid, hfl, ⟨e1, hc, hout⟩ |
                  ⟨ip, hwt, ⟨hexT, hkm, hout⟩ |
                    ⟨e1, hexT, hkm, hss, hout⟩ |
                    ⟨tr2, ⟨hexT, hkm, hss, rfl⟩ | ⟨hexF, rfl⟩,
                      ⟨hiid, hout⟩ | ⟨e1, hiid, hami, hout⟩ |
                      ⟨img, hiid, hami, hout⟩⟩⟩⟩⟩⟩⟩⟩⟩⟩
  · intro e he
    rw [hout] at he ⊢
    simp at he
    subst he
    exact Or.inl ⟨rfl, rfl⟩
  · intro e he
    rw [hout] at he ⊢
    simp at he
    subst he
    refine Or.inr ⟨[], Event.getVpc sn, rfl, ?_, Or.inl (by simp [evErr, errOf, hc])⟩
    intro ev hmem
    exact absurd hmem (List.not_mem_nil ev)
  · intro e he
    rw [hout] at he ⊢
    simp at he
    subst he
    refine Or.inr ⟨[Event.getVpc sn],
      Event.createKeyPair (orfmi_resource_name ctx "") ctx.config.tags,
      rfl, ?_, Or.inl (by simp [evErr, errOf, hc])⟩
    intro ev hmem
    fin_cases hmem <;> simp [evErr, errOf, hvpc]
  · intro e he
    rw [hout] at he ⊢
    simp at he
    subst he
    refine Or.inr ⟨[Event.getVpc sn,
      Event.createKeyPair (orfmi_resource_name ctx "") ctx.config.tags],
      Event.createSecurityGroup vpc (orfmi_resource_name ctx "")
        ctx.config.tags ctx.config.platform,
      rfl, ?_, Or.inl (by simp [evErr, errOf, hc])⟩
    intro ev hmem
    fin_cases hmem <;> simp [evErr, errOf, hvpc, hkp]
  · intro e he
    rw [hout] at he ⊢
    simp at he
    subst he
    refine Or.inr ⟨[Event.getVpc sn,
      Event.createKeyPair (orfmi_resource_name ctx "") ctx.config.tags,
      Event.createSecurityGroup vpc (orfmi_resource_name ctx "")
        ctx.config.tags ctx.config.platform],
      Event.lookupSourceAmi ctx.config.source_ami,
      rfl, ?_, Or.inl (by simp [evErr, errOf, hc])⟩
    intro ev hmem
    fin_cases hmem <;> simp [evErr, errOf, hvpc, hkp, hsg]
  · intro e he
    rw [hout] at he ⊢
    simp at he
    subst he
    refine Or.inr ⟨[Event.getVpc sn,
      Event.createKeyPair (orfmi_resource_name ctx "") ctx.config.tags,
      Event.createSecurityGroup vpc (orfmi_resource_name ctx "")
        ctx.config.tags ctx.config.platform,
      Event.lookupSourceAmi ctx.config.source_ami],
      Event.createLaunchTemplate
        ⟨orfmi_resource_name ctx "", src, sg, orfmi_resource_name ctx "",
         ctx.config.iam_instance_profile⟩ ctx.config.tags,
      rfl, ?_, Or.inl (by simp [evErr, errOf, hc])⟩
    intro ev hmem
    fin_cases hmem <;> simp [evErr, errOf, hvpc, hkp, hsg, hlk]
  · intro e he
    rw [hout] at he ⊢
    simp at he
    subst he
    refine Or.inr ⟨[Event.getVpc sn,
      Event.createKeyPair (orfmi_resource_name ctx "") ctx.config.tags,
      Event.createSecurityGroup vpc (orfmi_resource_name ctx "")
        ctx.config.tags ctx.config.platform,
      Event.lookupSourceAmi ctx.config.source_ami,
      Event.createLaunchTemplate
        ⟨orfmi_resource_name ctx "", src, sg, orfmi_resource_name ctx "",
         ctx.config.iam_instance_profile⟩ ctx.config.tags],
      Event.createFleetInstance (orfmi_resource_name ctx "")
        ⟨ctx.config.instance_types, ctx.config.subnet_ids⟩,
      rfl, ?_, Or.inl (by simp [evErr, errOf, hc])⟩
    intro ev hmem
    fin_cases hmem <;> simp [evErr, errOf, hvpc, hkp, hsg, hlk, hlt]
  · intro e he
    rw [hout] at he ⊢
    simp at he
    subst he
    refine Or.inr ⟨[Event.getVpc sn,
      Event.createKeyPair (orfmi_resource_name ctx "") ctx.config.tags,
      Event.createSecurityGroup vpc (orfmi_resource_name ctx "")
        ctx.config.tags ctx.config.platform,
      Event.lookupSourceAmi ctx.config.source_ami,
      Event.createLaunchTemplate
        ⟨orfmi_resource_name ctx "", src, sg, orfmi_resource_name ctx "",
         ctx.config.iam_instance_profile⟩ ctx.config.tags,
      Event.createFleetInstance (orfmi_resource_name ctx "")
        ⟨ctx.config.instance_types, ctx.config.subnet_ids⟩],
      Event.waitForInstance iid,
      rfl, ?_, Or.inl (by simp [evErr, errOf, hc])⟩
    intro ev hmem
    fin_cases hmem <;> simp [evErr, errOf, hvpc, hkp, hsg, hlk, hlt, hfl]
  · intro e he
    rw [hout] at he ⊢
    simp at he
    subst he
    refine Or.inr ⟨[Event.getVpc sn,
      Event.createKeyPair (orfmi_resource_name ctx "") ctx.config.tags,
      Event.createSecurityGroup vpc (orfmi_resource_name ctx "")
        ctx.config.tags ctx.config.platform,
      Event.lookupSourceAmi ctx.config.source_ami,
      Event.createLaunchTemplate
        ⟨orfmi_resource_name ctx "", src, sg, orfmi_resource_name ctx "",
         ctx.config.iam_instance_profile⟩ ctx.config.tags,
      Event.createFleetInstance (orfmi_resource_name ctx "")
        ⟨ctx.config.instance_types, ctx.config.subnet_ids⟩],
      Event.waitForInstance iid,
      rfl, ?_, Or.inr ⟨by simp [evErr, errOf, hwt], Or.inl rfl⟩⟩
    intro ev hmem
    fin_cases hmem <;> simp [evErr, errOf, hvpc, hkp, hsg, hlk, hlt, hfl]
  · intro e he
    rw [hout] at he ⊢
    simp at he
    subst he
    refine Or.inr ⟨[Event.getVpc sn,
      Event.createKeyPair (orfmi_resource_name ctx "") ctx.config.tags,
      Event.createSecurityGroup vpc (orfmi_resource_name ctx "")
        ctx.config.tags ctx.config.platform,
      Event.lookupSourceAmi ctx.config.source_ami,
      Event.createLaunchTemplate
        ⟨orfmi_resource_name ctx "", src, sg, orfmi_resource_name ctx "",
         ctx.config.iam_instance_profile⟩ ctx.config.tags,
      Event.createFleetInstance (orfmi_resource_name ctx "")
        ⟨ctx.config.instance_types, ctx.config.subnet_ids⟩,
      Event.waitForInstance iid],
      Event.runSetupScript
        ⟨ip, km, ctx.config.ssh_username, ctx.config.ssh_timeout,
         ctx.config.ssh_retries⟩ ctx.setup_script ctx.extra_files,
      rfl, ?_, Or.inl (by simp [evErr, errOf, hss])⟩
    intro ev hmem
    fin_cases hmem <;> simp [evErr, errOf, hvpc, hkp, hsg, hlk, hlt, hfl, hwt]
  · intro e he
    rw [hout] at he ⊢
    simp at he
    subst he
    refine Or.inr ⟨[Event.getVpc sn,
      Event.createKeyPair (orfmi_resource_name ctx "") ctx.config.tags,
      Event.createSecurityGroup vpc (orfmi_resource_name ctx "")
        ctx.config.tags ctx.config.platform,
      Event.lookupSourceAmi ctx.config.source_ami,
      Event.createLaunchTemplate
        ⟨orfmi_resource_name ctx "", src, sg, orfmi_resource_name ctx "",
         ctx.config.iam_instance_profile⟩ ctx.config.tags,
      Event.createFleetInstance (orfmi_resource_name ctx "")
        ⟨ctx.config.instance_types, ctx.config.subnet_ids⟩,
      Event.waitForInstance iid],
      Event.runSetupScript
        ⟨ip, km, ctx.config.ssh_username, ctx.config.ssh_timeout,
         ctx.config.ssh_retries⟩ ctx.setup_script ctx.extra_files,
      rfl, ?_, Or.inr ⟨by simp [evErr, errOf, hss], Or.inr rfl⟩⟩
    intro ev hmem
    fin_cases hmem <;> simp [evErr, errOf, hvpc, hkp, hsg, hlk, hlt, hfl, hwt]
  · intro e he
    rw [hout] at he ⊢
    simp at he
    subst he
    refine Or.inr ⟨[Event.getVpc sn,
      Event.createKeyPair (orfmi_resource_name ctx "") ctx.config.tags,
      Event.createSecurityGroup vpc (orfmi_resource_name ctx "")
        ctx.config.tags ctx.config.platform,
      Event.lookupSourceAmi ctx.config.source_ami,
      Event.createLaunchTemplate
        ⟨orfmi_resource_name ctx "", src, sg, orfmi_resource_name ctx "",
         ctx.config.iam_instance_profile⟩ ctx.config.tags,
      Event.createFleetInstance (orfmi_resource_name ctx "")
        ⟨ctx.config.instance_types, ctx.config.subnet_ids⟩,
      Event.waitForInstance iid,
      Event.runSetupScript
        ⟨ip, km, ctx.config.ssh_username, ctx.config.ssh_timeout,
         ctx.config.ssh_retries⟩ ctx.setup_script ctx.extra_files],
      Event.createAmi iid ctx.config.ami_name ctx.config.ami_description
        ctx.config.tags,
      rfl, ?_, Or.inl (by simp [evErr, errOf, hami])⟩
    intro ev hmem
    fin_cases hmem <;>
      simp [evErr, errOf, hvpc, hkp, hsg, hlk, hlt, hfl, hwt, hss]
  · intro e he
    rw [hout] at he
    exact Option.noConfusion he
  · intro e he
    rw [hout] at he ⊢
    simp at he
    subst he
    refine Or.inr ⟨[Event.getVpc sn,
      Event.createKeyPair (orfmi_resource_name ctx "") ctx.config.tags,
      Event.createSecurityGroup vpc (orfmi_resource_name ctx "")
        ctx.config.tags ctx.config.platform,
      Event.lookupSourceAmi ctx.config.source_ami,
      Event.createLaunchTemplate
        ⟨orfmi_resource_name ctx "", src, sg, orfmi_resource_name ctx "",
         ctx.config.iam_instance_profile⟩ ctx.config.tags,
      Event.createFleetInstance (orfmi_resource_name ctx "")
        ⟨ctx.config.instance_types, ctx.config.subnet_ids⟩],
      Event.waitForInstance iid,
      rfl, ?_, Or.inr ⟨by simp [evErr, errOf, hwt], Or.inr rfl⟩⟩
    intro ev hmem
    fin_cases hmem <;> simp [evErr, errOf, hvpc, hkp, hsg, hlk, hlt, hfl]
  · intro e he
    rw [hout] at he ⊢
    simp at he
    subst he
    refine Or.inr ⟨[Event.getVpc sn,
      Event.createKeyPair (orfmi_resource_name ctx "") ctx.config.tags,
      Event.createSecurityGroup vpc (orfmi_resource_name ctx "")
        ctx.config.tags ctx.config.platform,
      Event.lookupSourceAmi ctx.config.source_ami,
      Event.createLaunchTemplate
        ⟨orfmi_resource_name ctx "", src, sg, orfmi_resource_name ctx "",
         ctx.config.iam_instance_profile⟩ ctx.config.tags,
      Event.createFleetInstance (orfmi_resource_name ctx "")
        ⟨ctx.config.instance_types, ctx.config.subnet_ids⟩,
      Event.waitForInstance iid],
      Event.createAmi iid ctx.config.ami_name ctx.config.ami_description
        ctx.config.tags,
      rfl, ?_, Or.inl (by simp [evErr, errOf, hami])⟩
    intro ev hmem
    fin_cases hmem <;> simp [evErr, errOf, hvpc, hkp, hsg, hlk, hlt, hfl, hwt]
  · intro e he
    rw [hout] at he
    exact Option.noConfusion he

/-- C4: fail-fast and monotonicity of the pipeline.  The trace of every
run is strictly increasing in step order, so no collaborator operation
is invoked twice and nothing later than a failing step runs; when the
pipeline raises `e`, every call before the last succeeded and either the
last call raised exactly `e` or `e` is one of the pipeline's own guard
errors (empty subnet list, unset key material, unset instance id); and
the state fields recorded before a later step remain set: key material
once any step after key-pair creation ran, the security-group id once
any step after group creation ran, the instance id once any step after
the fleet request ran. -/
theorem orfmi_pipeline_fail_fast (g : Gateway) (ctx : BuildContext) :
    List.Chain' (· < ·) ((orfmi_run_build g ctx {}).2.1.map stepIndex)
    ∧ (∀ e, (orfmi_run_build g ctx {}).2.2 = some e →
        ((orfmi_run_build g ctx {}).2.1 = [] ∧ e = "list index out of range")
        ∨ ∃ pre lastEv, (orfmi_run_build g ctx {}).2.1 = pre ++ [lastEv]
            ∧ (∀ ev ∈ pre, evErr g ev = none)
            ∧ (evErr g lastEv = some e
               ∨ (evErr g lastEv = none
                  ∧ (e = "Key material not set"
                     ∨ e = "Instance ID not set after launch"))))
    ∧ ((∃ ev ∈ (orfmi_run_build g ctx {}).2.1, 1 < stepIndex ev) →
        (orfmi_run_build g ctx {}).1.key_material.isSome = true)
    ∧ ((∃ ev ∈ (orfmi_run_build g ctx {}).2.1, 2 < stepIndex ev) →
        (orfmi_run_build g ctx {}).1.sg_id.isSome = true)
    ∧ ((∃ ev ∈ (orfmi_run_build g ctx {}).2.1, 5 < stepIndex ev) →
        (orfmi_run_build g ctx {}).1.instance_id.isSome = true) :=
  ⟨orfmi_trace_chain g ctx, orfmi_err_characterization g ctx,
   orfmi_key_material_mono g ctx, orfmi_sg_mono g ctx,
   orfmi_instance_mono g ctx⟩

lemma connect_loop_all_fail (ok : Nat → Bool) (h : ∀ i, ok i = false) :
    ∀ r a, connect_loop ok a r = (r, Except.error "Failed to connect") := by
  intro r
  induction r with
  | zero => intro a; rfl
  | succ n ih =>
    intro a
    simp [connect_loop, h a, ih (a + 1)]

lemma connect_loop_succeeds (ok : Nat → Bool) :
    ∀ k r a, (∀ j, j < k → ok (a + j) = false) → ok (a + k) = true →
      k < r → connect_loop ok a r = (k + 1, Except.ok ()) := by
  intro k
  induction k with
  | zero =>
    intro r a hlt hok hkr
    cases r with
    | zero => omega
    | succ n =>
      have h0 : ok a = true := by simpa using hok
      simp [connect_loop, h0]
  | succ m ih =>
    intro r a hlt hok hkr
    cases r with
    | zero => omega
    | succ n =>
      have h0 : ok a = false := by simpa using hlt 0 (Nat.succ_pos m)
      have hshift : ∀ j, j < m → ok (a + 1 + j) = false := by
        intro j hj
        have h2 := hlt (j + 1) (by omega)
        have h3 : a + (j + 1) = a + 1 + j := by omega
        rwa [h3] at h2
      have hokm : ok (a + 1 + m) = true := by
        have h3 : a + (m + 1) = a + 1 + m := by omega
        rwa [h3] at hok
      have hrec := ih n (a + 1) hshift hokm (by omega)
      simp [connect_loop, h0, hrec]

/-- C7: the connection retry loop of the Remote Provisioner.  With a
configured retry count `N ≥ 1`: if the connect primitive fails on every
attempt, `connect_ssh` makes exactly `N` connect calls and fails with
the "Failed to connect" error; if it fails on the first `N - 1` attempts
and succeeds on attempt `N`, `connect_ssh` returns a usable session
after exactly `N` connect calls. -/
theorem connect_ssh_retry_contract (ok : Nat → Bool) (N : Nat) (hN : 1 ≤ N) :
    ((∀ i, ok i = false) →
      connect_ssh ok N = (N, Except.error "Failed to connect"))
    ∧ ((∀ i, i < N - 1 → ok i = false) → ok (N - 1) = true →
      connect_ssh ok N = (N, Except.ok ())) := by
  constructor
  · intro h
    exact connect_loop_all_fail ok h N 0
  · intro hfail hok
    have h1 := connect_loop_succeeds ok (N - 1) N 0
      (fun j hj => by simpa using hfail j hj) (by simpa using hok) (by omega)
    have h2 : N - 1 + 1 = N := by omega
    rw [connect_ssh, h1, h2]

lemma upload_extras_no_close (ops : SshOps) :
    ∀ l, SshEvent.closeSession ∉ (upload_extras ops l).1 := by
  intro l
  induction l with
  | nil => simp [upload_extras]
  | cons f fs ih =>
    cases h : ops.uploadExtraOp f with
    | error e => simp [upload_extras, h]
    | ok u => simp [upload_extras, h, ih]

lemma upload_extras_all_ok (ops : SshOps) :
    ∀ l, (∀ f ∈ l, ops.uploadExtraOp f = Except.ok ()) →
      upload_extras ops l = (l.map SshEvent.uploadExtra, none) := by
  intro l
  induction l with
  | nil => intro _; rfl
  | cons f fs ih =>
    intro hall
    have hf := hall f (by simp)
    simp [upload_extras, hf, ih (fun x hx => hall x (by simp [hx]))]

lemma ssh_body_no_close (ops : SshOps) (script : String) (extras : List String) :
    SshEvent.closeSession ∉ (ssh_session_body ops script extras).1 := by
  unfold ssh_session_body
  cases h1 : ops.uploadScriptOp with
  | error e => simp
  | ok u =>
    cases h2 : ops.chmodOp with
    | error e => simp
    | ok v =>
      cases h3 : ops.execOp with
      | error e => simp
      | ok w =>
        rcases hup : upload_extras ops extras with ⟨tr, out⟩
        have hnc := upload_extras_no_close ops extras
        rw [hup] at hnc
        simp [hnc]

/-- C8: for every successful connection, `run_setup_script` uploads the
setup script to the fixed remote path, marks it executable, executes it,
then uploads each extra file in the order given; and it closes the
session exactly once, as the final action, on every exit path —
including when the execute step fails, in which case the execute error
is re-raised after the close. -/
theorem run_setup_script_contract (ops : SshOps) (script : String)
    (extras : List String) (hc : ops.connect = Except.ok ()) :
    List.count SshEvent.closeSession (run_setup_script ops script extras).1 = 1
    ∧ (run_setup_script ops script extras).1.getLast? = some SshEvent.closeSession
    ∧ (ops.uploadScriptOp = Except.ok () → ops.chmodOp = Except.ok () →
       ops.execOp = Except.ok () →
       (∀ f ∈ extras, ops.uploadExtraOp f = Except.ok ()) →
       run_setup_script ops script extras =
         (SshEvent.connectSession ::
          SshEvent.uploadScript script remoteSetupPath ::
          SshEvent.chmodScript remoteSetupPath ::
          SshEvent.execScript remoteSetupPath ::
          (extras.map SshEvent.uploadExtra ++ [SshEvent.closeSession]), none))
    ∧ (∀ e, ops.uploadScriptOp = Except.ok () → ops.chmodOp = Except.ok () →
       ops.execOp = Except.error e →
       run_setup_script ops script extras =
         ([SshEvent.connectSession,
           SshEvent.uploadScript script remoteSetupPath,
           SshEvent.chmodScript remoteSetupPath,
           SshEvent.execScript remoteSetupPath,
           SshEvent.closeSession], some e)) := by
  have hshape : (run_setup_script ops script extras).1 =
      SshEvent.connectSession ::
        (ssh_session_body ops script extras).1 ++ [SshEvent.closeSession] := by
    rcases hb : ssh_session_body ops script extras with ⟨btr, bout⟩
    simp [run_setup_script, hc, hb]
  refine ⟨?_, ?_, ?_, ?_⟩
  · rw [hshape]
    have hnc := ssh_body_no_close ops script extras
    simp [List.count_cons, List.count_append, List.count_eq_zero.mpr hnc]
  · rw [hshape]
    rw [show SshEvent.connectSession ::
        (ssh_session_body ops script extras).1 ++ [SshEvent.closeSession] =
        (SshEvent.connectSession :: (ssh_session_body ops script extras).1)
          ++ [SshEvent.closeSession] from by simp]
    exact List.getLast?_concat _
  · intro h1 h2 h3 h4
    simp [run_setup_script, hc, ssh_session_body, h1, h2, h3,
      upload_extras_all_ok ops extras h4]
  · intro e h1 h2 h3
    simp [run_setup_script, hc, ssh_session_body, h1, h2, h3]

lemma pick_newest_spec : ∀ (l : List AmiImage) (b : AmiImage),
    (pick_newest b l = b ∨ pick_newest b l ∈ l)
    ∧ b.creation_date ≤ (pick_newest b l).creation_date
    ∧ ∀ j ∈ l, j.creation_date ≤ (pick_newest b l).creation_date := by
  intro l
  induction l with
  | nil => intro b; simp [pick_newest]
  | cons i rest ih =>
    intro b
    simp only [pick_newest]
    by_cases hlt : b.creation_date < i.creation_date
    · simp only [if_pos hlt]
      obtain ⟨hm, hle, hall⟩ := ih i
      refine ⟨?_, le_trans (le_of_lt hlt) hle, ?_⟩
      · rcases hm with h | h
        · exact Or.inr (by simp [h])
        · exact Or.inr (List.mem_cons_of_mem i h)
      · intro j hj
        rcases List.mem_cons.mp hj with rfl | hj2
        · exact hle
        · exact hall j hj2
    · simp only [if_neg hlt]
      obtain ⟨hm, hle, hall⟩ := ih b
      refine ⟨?_, hle, ?_⟩
      · rcases hm with h | h
        · exact Or.inl h
        · exact Or.inr (List.mem_cons_of_mem i h)
      · intro j hj
        rcases List.mem_cons.mp hj with rfl | hj2
        · exact le_trans (le_of_not_lt hlt) hle
        · exact hall j hj2

/-- C9: source-image resolution.  With zero matching images the lookup
fails with "No AMI found"; with one or more matches it returns the id of
an image whose creation timestamp is maximal among all matches; and in
particular for two matches with timestamps T1 < T2 it returns the
image with timestamp T2, whichever order the matches arrive in. -/
theorem lookup_source_ami_newest :
    lookup_source_ami [] = Except.error "No AMI found"
    ∧ (∀ imgs : List AmiImage, imgs ≠ [] →
        ∃ b ∈ imgs, lookup_source_ami imgs = Except.ok b.image_id
          ∧ ∀ j ∈ imgs, j.creation_date ≤ b.creation_date)
    ∧ (∀ i1 i2 : AmiImage, i1.creation_date < i2.creation_date →
        lookup_source_ami [i1, i2] = Except.ok i2.image_id
        ∧ lookup_source_ami [i2, i1] = Except.ok i2.image_id) := by
  refine ⟨rfl, ?_, ?_⟩
  · intro imgs hne
    cases imgs with
    | nil => exact absurd rfl hne
    | cons i rest =>
      obtain ⟨hm, hle, hall⟩ := pick_newest_spec rest i
      refine ⟨pick_newest i rest, ?_, rfl, ?_⟩
      · rcases hm with h | h
        · simp [h]
        · exact List.mem_cons_of_mem i h
      · intro j hj
        rcases List.mem_cons.mp hj with rfl | hj2
        · exact hle
        · exact hall j hj2
  · intro i1 i2 h
    constructor
    · have hp : pick_newest i1 [i2] = i2 := by
        simp only [pick_newest, if_pos h]
      simp [lookup_source_ami, hp]
    · have hp : pick_newest i2 [i1] = i2 := by
        simp only [pick_newest, if_neg (lt_asymm h)]
      simp [lookup_source_ami, hp]

/-- Rename `a` to `b` (used on resource-name arguments). -/
def renameStr (a b s : String) : String := if s = a then b else s

/-- Rename the resource-name positions of an event: key-pair name,
security-group name, launch-template/key names inside the template
parameters, the fleet request's template name, and the cleanup deletion
names.  Ids returned by the gateway (vpc, sg id, instance id, image id)
and all other arguments are untouched. -/
def renameEvent (a b : String) : Event → Event
  | Event.createKeyPair n t => Event.createKeyPair (renameStr a b n) t
  | Event.createSecurityGroup v n t p =>
      Event.createSecurityGroup v (renameStr a b n) t p
  | Event.createLaunchTemplate p t =>
      Event.createLaunchTemplate
        ⟨renameStr a b p.template_name, p.base_ami, p.sg_id,
         renameStr a b p.key_name, p.iam_profile⟩ t
  | Event.createFleetInstance tn fc =>
      Event.createFleetInstance (renameStr a b tn) fc
  | Event.deleteLaunchTemplate n =>
      Event.deleteLaunchTemplate (renameStr a b n)
  | Event.deleteKeyPair n => Event.deleteKeyPair (renameStr a b n)
  | ev => ev

lemma ormi_cleanup_eq (g : Gateway) (st : BuildState) (tn kn : String) :
    ormi_cleanup g st tn kn =
      (match st.instance_id with
       | some iid => if iid = "" then [] else [Event.terminateInstance iid]
       | none => [])
      ++ [Event.deleteLaunchTemplate tn, Event.deleteKeyPair kn]
      ++ (match st.sg_id with
          | some s => if s = "" then [] else [Event.deleteSecurityGroup s]
          | none => []) := by
  obtain ⟨i, sgid, k, r⟩ := st
  cases i <;> cases sgid <;>
    simp [ormi_cleanup, terminate_instance_eq, delete_launch_template_eq,
      delete_key_pair_eq, delete_security_group_eq]

/-- The configuration used by the concrete test scenarios. -/
def cfgEx : AmiConfig :=
  { ami_name := "test-ami", region := "us-east-1",
    source_ami := "debian-12-*", subnet_ids := ["subnet-1"],
    instance_types := ["t3.micro"] }

/-- A concrete build context with no setup script on local storage. -/
def ctxEx : BuildContext :=
  { config := cfgEx, setup_script := "setup.sh",
    setup_script_exists := false, unique_id := "abc12345" }

/-- A gateway on which every operation succeeds with fixed ids, and
whose responses ignore the resource names they are passed. -/
def gOK : Gateway :=
  { get_vpc_from_subnet := fun _ => Except.ok "vpc-12345",
    create_key_pair := fun _ _ => Except.ok "private-key",
    create_security_group := fun _ _ _ _ => Except.ok "sg-12345",
    lookup_source_ami := fun _ => Except.ok "ami-source",
    create_launch_template := fun _ _ => Except.ok (),
    create_fleet_instance := fun _ _ => Except.ok "i-12345",
    wait_for_instance := fun _ => Except.ok "1.2.3.4",
    run_setup_script := fun _ _ _ => Except.ok (),
    create_ami := fun _ _ _ _ => Except.ok "ami-result",
    raw_terminate_instance := fun _ => Except.ok (),
    raw_delete_launch_template := fun _ => Except.ok (),
    raw_delete_key_pair := fun _ => Except.ok (),
    raw_delete_security_group := fun _ _ => Except.ok () }

/-- Like `gOK` but the fleet request reports the empty string as the
instance id (the provider returned no usable instance id). -/
def gEmptyFleet : Gateway :=
  { gOK with create_fleet_instance := fun _ _ => Except.ok "" }

/-- C10 counterexample: the two builders are not behaviourally
equivalent.  On a gateway whose fleet request returns an empty instance
id, the orfmi builder fails with its "Instance ID not set after launch"
guard while the ormi builder returns a built image; and even on the
all-success gateway, where both return the same image id, their call
traces differ (orfmi names resources `orfmi-<id>`, ormi `ormi-<id>`). -/
theorem builders_not_equivalent :
    (orfmi_build gEmptyFleet ctxEx).1 =
      Except.error "Instance ID not set after launch"
    ∧ (ormi_build gEmptyFleet ctxEx).1 = Except.ok "ami-result"
    ∧ (orfmi_build gOK ctxEx).1 = (ormi_build gOK ctxEx).1
    ∧ (orfmi_build gOK ctxEx).2 ≠ (ormi_build gOK ctxEx).2 := by
  exact ⟨rfl, rfl, rfl, by decide⟩

/-- C10 (amended): the two builders are behaviourally equivalent up to
the resource-name prefix and orfmi's extra guards.  Given the same
configuration, setup script and extra files, and a gateway whose
responses do not depend on which of the two resource names it is passed
and whose create_key_pair and create_fleet_instance return non-empty
identifiers, the builds produce the same result or error, and renaming
`ormi-<id>` to `orfmi-<id>` in the resource-name argument positions
maps the ormi call trace onto the orfmi call trace, call for call in
the same order. -/
theorem builders_equivalent_up_to_renaming (g : Gateway) (ctx : BuildContext)
    (h1 : ∀ t, g.create_key_pair (ormi_resource_name ctx.unique_id) t =
      g.create_key_pair (orfmi_resource_name ctx "") t)
    (h2 : ∀ v t p,
      g.create_security_group v (ormi_resource_name ctx.unique_id) t p =
      g.create_security_group v (orfmi_resource_name ctx "") t p)
    (h3 : ∀ src sgid iam t, g.create_launch_template
        ⟨ormi_resource_name ctx.unique_id, src, sgid,
         ormi_resource_name ctx.unique_id, iam⟩ t =
      g.create_launch_template
        ⟨orfmi_resource_name ctx "", src, sgid,
         orfmi_resource_name ctx "", iam⟩ t)
    (h4 : ∀ fc, g.create_fleet_instance (ormi_resource_name ctx.unique_id) fc =
      g.create_fleet_instance (orfmi_resource_name ctx "") fc)
    (hk : ∀ t r, g.create_key_pair (orfmi_resource_name ctx "") t =
      Except.ok r → r ≠ "")
    (hf : ∀ fc r, g.create_fleet_instance (orfmi_resource_name ctx "") fc =
      Except.ok r → r ≠ "") :
    (orfmi_build g ctx).1 = (ormi_build g ctx).1
    ∧ (orfmi_build g ctx).2 = (ormi_build g ctx).2.map
        (renameEvent (ormi_resource_name ctx.unique_id)
          (orfmi_resource_name ctx "")) := by
  have h := orfmi_run_build_spec g ctx
  simp only [OrfmiOutcome] at h
  rcases h with ⟨hsub, hout⟩ |
    ⟨sn, rest, hsub, ⟨e1, hc, hout⟩ |
      ⟨vpc, hvpc, ⟨e1, hc, hout⟩ |
        ⟨km, hkp, ⟨e1, hc, hout⟩ |
          ⟨sg, hsg, ⟨e1, hc, hout⟩ |
            ⟨src, hlk, ⟨e1, hc, hout⟩ |
              ⟨hlt, ⟨e1, hc, hout⟩ |
                ⟨iid, hfl, ⟨e1, hc, hout⟩ |
                  ⟨ip, hwt, ⟨hexT, hkm, hout⟩ |
                    ⟨e1, hexT, hkm, hss, hout⟩ |
                    ⟨tr2, ⟨hexT, hkm, hss, rfl⟩ | ⟨hexF, rfl⟩,
                      ⟨hiid, hout⟩ | ⟨e1, hiid, hami, hout⟩ |
                      ⟨img, hiid, hami, hout⟩⟩⟩⟩⟩⟩⟩⟩⟩⟩
  · constructor
    · simp [orfmi_build, ormi_build, ormi_run_build, hout, hsub]
    · simp [orfmi_build, ormi_build, ormi_run_build, hout, hsub,
        orfmi_cleanup_eq, ormi_cleanup_eq, orfmiPrefixTrace,
        renameEvent, renameStr]
  · constructor
    · simp [orfmi_build, ormi_build, ormi_run_build, hout, hsub, hc]
    · simp [orfmi_build, ormi_build, ormi_run_build, hout, hsub, hc,
        orfmi_cleanup_eq, ormi_cleanup_eq, orfmiPrefixTrace,
        renameEvent, renameStr]
  · constructor
    · simp [orfmi_build, ormi_build, ormi_run_build, hout, hsub, hvpc, h1, hc]
    · simp [orfmi_build, ormi_build, ormi_run_build, hout, hsub, hvpc, h1, hc,
        orfmi_cleanup_eq, ormi_cleanup_eq, orfmiPrefixTrace,
        renameEvent, renameStr]
  · constructor
    · simp [orfmi_build, ormi_build, ormi_run_build, hout, hsub, hvpc, h1,
        hkp, h2, hc]
    · simp [orfmi_build, ormi_build, ormi_run_build, hout, hsub, hvpc, h1,
        hkp, h2, hc, orfmi_cleanup_eq, ormi_cleanup_eq, orfmiPrefixTrace,
        renameEvent, renameStr]
  · constructor
    · simp [orfmi_build, ormi_build, ormi_run_build, hout, hsub, hvpc, h1,
        hkp, h2, hsg, hc]
    · simp [orfmi_build, ormi_build, ormi_run_build, hout, hsub, hvpc, h1,
        hkp, h2, hsg, hc, orfmi_cleanup_eq, ormi_cleanup_eq,
        orfmiPrefixTrace, renameEvent, renameStr]
      all_goals split_ifs <;> simp [renameEvent, renameStr]
  · constructor
    · simp [orfmi_build, ormi_build, ormi_run_build, hout, hsub, hvpc, h1,
        hkp, h2, hsg, hlk, h3, hc]
    · simp [orfmi_build, ormi_build, ormi_run_build, hout, hsub, hvpc, h1,
        hkp, h2, hsg, hlk, h3, hc, orfmi_cleanup_eq, ormi_cleanup_eq,
        orfmiPrefixTrace, renameEvent, renameStr]
      all_goals split_ifs <;> simp [renameEvent, renameStr]
  · rw [hsub] at hc
    constructor
    · simp [orfmi_build, ormi_build, ormi_run_build, hout, hsub, hvpc, h1,
        hkp, h2, hsg, hlk, h3, hlt, h4, hc]
    · simp [orfmi_build, ormi_build, ormi_run_build, hout, hsub, hvpc, h1,
        hkp, h2, hsg, hlk, h3, hlt, h4, hc, orfmi_cleanup_eq,
        ormi_cleanup_eq, orfmiPrefixTrace, renameEvent, renameStr]
      all_goals split_ifs <;> simp [renameEvent, renameStr]
  · rw [hsub] at hfl
    constructor
    · simp [orfmi_build, ormi_build, ormi_run_build, hout, hsub, hvpc, h1,
        hkp, h2, hsg, hlk, h3, hlt, h4, hfl, hc]
    · simp [orfmi_build, ormi_build, ormi_run_build, hout, hsub, hvpc, h1,
        hkp, h2, hsg, hlk, h3, hlt, h4, hfl, hc, orfmi_cleanup_eq,
        ormi_cleanup_eq, orfmiPrefixTrace, renameEvent, renameStr]
      all_goals split_ifs <;> simp [renameEvent, renameStr]
  · exact absurd hkm (hk ctx.config.tags km hkp)
  · rw [hsub] at hfl
    constructor
    · simp [orfmi_build, ormi_build, ormi_run_build, hout, hsub, hvpc, h1,
        hkp, h2, hsg, hlk, h3, hlt, h4, hfl, hwt, hexT, hss]
    · simp [orfmi_build, ormi_build, ormi_run_build, hout, hsub, hvpc, h1,
        hkp, h2, hsg, hlk, h3, hlt, h4, hfl, hwt, hexT, hss,
        orfmi_cleanup_eq, ormi_cleanup_eq, orfmiPrefixTrace,
        renameEvent, renameStr]
      all_goals split_ifs <;> simp [renameEvent, renameStr]
  · exact absurd hiid
      (hf ⟨ctx.config.instance_types, ctx.config.subnet_ids⟩ iid hfl)
  · rw [hsub] at hfl
    constructor
    · simp [orfmi_build, ormi_build, ormi_run_build, hout, hsub, hvpc, h1,
        hkp, h2, hsg, hlk, h3, hlt, h4, hfl, hwt, hexT, hss, hami]
    · simp [orfmi_build, ormi_build, ormi_run_build, hout, hsub, hvpc, h1,
        hkp, h2, hsg, hlk, h3, hlt, h4, hfl, hwt, hexT, hss, hami,
        orfmi_cleanup_eq, ormi_cleanup_eq, orfmiPrefixTrace,
        renameEvent, renameStr]
      all_goals split_ifs <;>
        simp [orfmi_build, ormi_build, ormi_run_build, hout, hsub, hvpc, h1,
          hkp, h2, hsg, hlk, h3, hlt, h4, hfl, hwt, hexT, hss, hami,
          orfmi_cleanup_eq, ormi_cleanup_eq, orfmiPrefixTrace,
          renameEvent, renameStr]
  · rw [hsub] at hfl
    constructor
    · simp [orfmi_build, ormi_build, ormi_run_build, hout, hsub, hvpc, h1,
        hkp, h2, hsg, hlk, h3, hlt, h4, hfl, hwt, hexT, hss, hami]
      all_goals split_ifs <;>
        simp [orfmi_build, ormi_build, ormi_run_build, hout, hsub, hvpc, h1,
          hkp, h2, hsg, hlk, h3, hlt, h4, hfl, hwt, hexT, hss, hami]
    · simp [orfmi_build, ormi_build, ormi_run_build, hout, hsub, hvpc, h1,
        hkp, h2, hsg, hlk, h3, hlt, h4, hfl, hwt, hexT, hss, hami,
        orfmi_cleanup_eq, ormi_cleanup_eq, orfmiPrefixTrace,
        renameEvent, renameStr]
      all_goals split_ifs <;>
        simp [orfmi_build, ormi_build, ormi_run_build, hout, hsub, hvpc, h1,
          hkp, h2, hsg, hlk, h3, hlt, h4, hfl, hwt, hexT, hss, hami,
          orfmi_cleanup_eq, ormi_cleanup_eq, orfmiPrefixTrace,
          renameEvent, renameStr]
  · exact absurd hiid
      (hf ⟨ctx.config.instance_types, ctx.config.subnet_ids⟩ iid hfl)
  · rw [hsub] at hfl
    constructor
    · simp [orfmi_build, ormi_build, ormi_run_build, hout, hsub, hvpc, h1,
        hkp, h2, hsg, hlk, h3, hlt, h4, hfl, hwt, hexF, hami]
    · simp [orfmi_build, ormi_build, ormi_run_build, hout, hsub, hvpc, h1,
        hkp, h2, hsg, hlk, h3, hlt, h4, hfl, hwt, hexF, hami,
        orfmi_cleanup_eq, ormi_cleanup_eq, orfmiPrefixTrace,
        renameEvent, renameStr]
      all_goals split_ifs <;>
        simp [orfmi_build, ormi_build, ormi_run_build, hout, hsub, hvpc, h1,
          hkp, h2, hsg, hlk, h3, hlt, h4, hfl, hwt, hexF, hami,
          orfmi_cleanup_eq, ormi_cleanup_eq, orfmiPrefixTrace,
          renameEvent, renameStr]
  · rw [hsub] at hfl
    constructor
    · simp [orfmi_build, ormi_build, ormi_run_build, hout, hsub, hvpc, h1,
        hkp, h2, hsg, hlk, h3, hlt, h4, hfl, hwt, hexF, hami]
      all_goals split_ifs <;>
        simp [orfmi_build, ormi_build, ormi_run_build, hout, hsub, hvpc, h1,
          hkp, h2, hsg, hlk, h3, hlt, h4, hfl, hwt, hexF, hami]
    · simp [orfmi_build, ormi_build, ormi_run_build, hout, hsub, hvpc, h1,
        hkp, h2, hsg, hlk, h3, hlt, h4, hfl, hwt, hexF, hami,
        orfmi_cleanup_eq, ormi_cleanup_eq, orfmiPrefixTrace,
        renameEvent, renameStr]
      all_goals split_ifs <;>
        simp [orfmi_build, ormi_build, ormi_run_build, hout, hsub, hvpc, h1,
          hkp, h2, hsg, hlk, h3, hlt, h4, hfl, hwt, hexF, hami,
          orfmi_cleanup_eq, ormi_cleanup_eq, orfmiPrefixTrace,
          renameEvent, renameStr]

/-- Like `gOK` but the fleet request fails. -/
def gFailFleet : Gateway :=
  { gOK with create_fleet_instance :=
      fun _ _ => Except.error "Fleet creation failed" }

/-- Like `gOK` but every underlying cleanup call fails. -/
def gBadCleanup : Gateway :=
  { gOK with
    raw_terminate_instance := fun _ => Except.error "boom1",
    raw_delete_launch_template := fun _ => Except.error "boom2",
    raw_delete_key_pair := fun _ => Except.error "boom3",
    raw_delete_security_group := fun _ _ => Except.error "boom4" }

/-- Like `gOK` but image creation reports an empty image id. -/
def gAmiEmpty : Gateway :=
  { gOK with create_ami := fun _ _ _ _ => Except.ok "" }

/-- Witness for the C1 theorem at a concrete failing gateway: the fleet
error propagates out of the build unchanged. -/
theorem orfmi_build_always_cleanup_witness :
    (orfmi_build gFailFleet ctxEx).1 = Except.error "Fleet creation failed" :=
  (orfmi_build_always_cleanup gFailFleet ctxEx).2.2.2
    "Fleet creation failed" (by decide)

/-- Witness for the C2 theorem: a gateway whose every cleanup call
fails performs the same cleanup steps and yields the same build result
as the all-success gateway. -/
theorem orfmi_cleanup_guarded_witness :
    orfmi_cleanup gOK ctxEx
        ⟨some "i-12345", some "sg-12345", some "private-key", none⟩ =
      orfmi_cleanup gBadCleanup ctxEx
        ⟨some "i-12345", some "sg-12345", some "private-key", none⟩
    ∧ (orfmi_build gOK ctxEx).1 = (orfmi_build gBadCleanup ctxEx).1 :=
  ⟨(orfmi_cleanup_guarded gOK gBadCleanup ctxEx
      ⟨some "i-12345", some "sg-12345", some "private-key", none⟩
      ⟨rfl, rfl, rfl, rfl, rfl, rfl, rfl, rfl, rfl⟩).1,
   (orfmi_cleanup_guarded gOK gBadCleanup ctxEx
      ⟨some "i-12345", some "sg-12345", some "private-key", none⟩
      ⟨rfl, rfl, rfl, rfl, rfl, rfl, rfl, rfl, rfl⟩).2.2.2.2.2⟩

/-- Witness for the C3 theorem: when the fleet request fails, the build
performs no termination and exactly one template and one key deletion. -/
theorem orfmi_cleanup_exact_sequence_witness :
    (∀ ev ∈ (orfmi_build gFailFleet ctxEx).2, ev.isTerminate = false)
    ∧ List.countP (fun ev => ev.isDeleteLaunchTemplate)
        (orfmi_build gFailFleet ctxEx).2 = 1
    ∧ List.countP (fun ev => ev.isDeleteKeyPair)
        (orfmi_build gFailFleet ctxEx).2 = 1 :=
  (orfmi_cleanup_exact_sequence gFailFleet ctxEx {}).2
    "Fleet creation failed" rfl

/-- Counterexample to C3 as originally stated: Python truthiness makes
`_cleanup` skip termination when the recorded instance id is the empty
string, and skip the security-group deletion when the recorded group id
is the empty string, so the cleanup sequence is not "terminate iff an
instance id was recorded".  The empty-id state is reachable: a fleet
request answering an empty instance id leaves `instance_id = some ""`
in the final state, and the resulting build trace contains no
termination event at all. -/
theorem orfmi_cleanup_skips_empty_ids :
    orfmi_cleanup gOK ctxEx ⟨some "", none, some "private-key", none⟩ =
      [Event.deleteLaunchTemplate (orfmi_resource_name ctxEx ""),
       Event.deleteKeyPair (orfmi_resource_name ctxEx "")]
    ∧ orfmi_cleanup gOK ctxEx ⟨none, some "", some "private-key", none⟩ =
      [Event.deleteLaunchTemplate (orfmi_resource_name ctxEx ""),
       Event.deleteKeyPair (orfmi_resource_name ctxEx "")]
    ∧ (orfmi_run_build gEmptyFleet ctxEx {}).1.instance_id = some ""
    ∧ List.countP (fun ev => ev.isTerminate)
        (orfmi_build gEmptyFleet ctxEx).2 = 0 :=
  ⟨rfl, rfl, rfl, by decide⟩

/-- Witness for the C4 theorem: on the all-success gateway the pipeline
ran past key-pair creation, so the key material is recorded. -/
theorem orfmi_pipeline_fail_fast_witness :
    (orfmi_run_build gOK ctxEx {}).1.key_material.isSome = true :=
  (orfmi_pipeline_fail_fast gOK ctxEx).2.2.1 (by decide)

/-- Witness for the C5 theorem: when image creation reports an empty
image id the build raises the generic no-result error. -/
theorem orfmi_build_requires_result_witness :
    (orfmi_build gAmiEmpty ctxEx).1 =
      Except.error "AMI build failed: no AMI ID returned" :=
  (orfmi_build_requires_result gAmiEmpty ctxEx).2 (by decide) (by decide)

/-- Witness for the C6 theorem: with no setup script on local storage
the build never invokes the Remote Provisioner. -/
theorem orfmi_setup_script_optional_witness :
    ∀ ev ∈ (orfmi_build gOK ctxEx).2, ev.isRunSetupScript = false :=
  ((orfmi_setup_script_optional gOK ctxEx).1 rfl).1

/-- Witness for the C7 theorem at retry count 3: two failures then a
success connects after exactly 3 attempts; constant failure raises
after exactly 3 attempts. -/
theorem connect_ssh_retry_contract_witness :
    connect_ssh (fun i => i == 2) 3 = (3, Except.ok ())
    ∧ connect_ssh (fun _ => false) 3 =
        (3, Except.error "Failed to connect") :=
  ⟨(connect_ssh_retry_contract (fun i => i == 2) 3 (by decide)).2
      (by decide) (by decide),
   (connect_ssh_retry_contract (fun _ => false) 3 (by decide)).1
      (fun _ => rfl)⟩

/-- Remote-shell primitives that all succeed. -/
def opsOK : SshOps :=
  { connect := Except.ok (), uploadScriptOp := Except.ok (),
    chmodOp := Except.ok (), execOp := Except.ok (),
    uploadExtraOp := fun _ => Except.ok () }

/-- Witness for the C8 theorem: on an all-success session the exact
ordered trace is produced and the session is closed last. -/
theorem run_setup_script_contract_witness :
    run_setup_script opsOK "setup.sh" ["extra.txt"] =
      (SshEvent.connectSession ::
       SshEvent.uploadScript "setup.sh" remoteSetupPath ::
       SshEvent.chmodScript remoteSetupPath ::
       SshEvent.execScript remoteSetupPath ::
       (["extra.txt"].map SshEvent.uploadExtra ++ [SshEvent.closeSession]),
       none) :=
  (run_setup_script_contract opsOK "setup.sh" ["extra.txt"] rfl).2.2.1
    rfl rfl rfl (fun _ _ => rfl)

/-- Witness for the C9 theorem: of two images created 2024-01-01 and
2024-06-01 the June one is returned. -/
theorem lookup_source_ami_newest_witness :
    lookup_source_ami
      [⟨"ami-old", "2024-01-01"⟩, ⟨"ami-new", "2024-06-01"⟩] =
      Except.ok "ami-new" :=
  (lookup_source_ami_newest.2.2 ⟨"ami-old", "2024-01-01"⟩
    ⟨"ami-new", "2024-06-01"⟩ (by
      rw [show ({ image_id := "ami-old", creation_date := "2024-01-01"} :
          AmiImage).creation_date = "2024-01-01" from rfl,
        show ({ image_id := "ami-new", creation_date := "2024-06-01"} :
          AmiImage).creation_date = "2024-06-01" from rfl,
        String.lt_iff_toList_lt]
      decide)).1

/-- Witness for the amended C10 theorem: on the name-oblivious
all-success gateway both builders return the same image id. -/
theorem builders_equivalent_up_to_renaming_witness :
    (orfmi_build gOK ctxEx).1 = (ormi_build gOK ctxEx).1 :=
  (builders_equivalent_up_to_renaming gOK ctxEx
    (fun _ => rfl) (fun _ _ _ => rfl) (fun _ _ _ _ => rfl) (fun _ => rfl)
    (fun _ r h => by injection h with h2; subst h2; decide)
    (fun _ r h => by injection h with h2; subst h2; decide)).1
